import Mathlib

/-!
Verification development for the TIE repository (trading intelligence engine).

Shallow embedding of the core logic:
* `src/server/strategies.ts` (provided as `src/unnamed/part_001`): the pure
  strategy engine (`evaluateTrendContinuation`, `evaluateRangeBreakout`,
  `evaluateStrategies`, `hasRequiredIndicators`).
* `src/server/scanner.ts`: the pure helpers (`getLatestClosedCandle`) and the
  per-instrument processing pipeline (`processInstrument`, `runScanCycle`),
  modelled over an explicit storage snapshot.
* `src/server/twelvedata.ts`: the rate governor (`waitForBudget`,
  `resetWindowIfNeeded`) and the vendor client (`requestWithRetry`,
  `fetchIndicatorPackBatch`, `fetchAllIndicatorsForSymbol`), modelled over an
  explicit clock with deterministic sleeps and a scripted response list, and
  emitting an event trace (budget waits, queue entries, network sends).
* `src/server/alerter.ts`: the string sanitizer `safeString`.

Prices are embedded as rationals (the TS source uses IEEE doubles only for
ordering comparisons and multiplication by small decimal constants, which the
claims under study never exercise at precision boundaries); timestamps are
naturals (milliseconds since epoch, as produced by `Date.getTime()`).
-/

namespace TIE

/-- One OHLCV bar (table `candles` of `src/shared/schema.ts`); `datetimeUtc` is
the bar's open time in epoch milliseconds. -/
structure Candle where
  datetimeUtc : Nat
  openPrice : ℚ
  high : ℚ
  low : ℚ
  close : ℚ
  volume : Option ℚ
deriving DecidableEq

/-- One derived-indicator row (table `indicators` of `src/shared/schema.ts`);
every derived field is nullable. -/
structure Indicator where
  datetimeUtc : Nat
  ema9 : Option ℚ
  ema21 : Option ℚ
  ema55 : Option ℚ
  ema200 : Option ℚ
  bbUpper : Option ℚ
  bbMiddle : Option ℚ
  bbLower : Option ℚ
  bbWidth : Option ℚ
  macd : Option ℚ
  macdSignal : Option ℚ
  macdHist : Option ℚ
  atr : Option ℚ
  adx : Option ℚ
deriving DecidableEq

/-- Trade direction ("LONG" | "SHORT" in the TS source). -/
inductive Direction where
  | long
  | short
deriving DecidableEq

/-- The evaluation context handed to the strategy engine
(`StrategyInput` in `strategies.ts`). -/
structure StrategyInput where
  instrumentId : Nat
  entryCandles : List Candle
  entryIndicators : List Indicator
  biasCandles : List Candle
  biasIndicators : List Indicator
  entryTimeframe : String
deriving DecidableEq

/-- A strategy verdict (`StrategyResult` in `strategies.ts`). The
`reasonJson` diagnostic payload is not modelled: no claim depends on it and it
does not feed back into any control flow. -/
structure StrategyResult where
  strategy : String
  direction : Direction
  score : Nat
deriving DecidableEq

/-- `indicatorForCandle` of `strategies.ts`: first indicator row whose
timestamp equals the candle's. -/
def indicatorForCandle (indicators : List Indicator) (candle : Candle) : Option Indicator :=
  indicators.find? (fun i => i.datetimeUtc == candle.datetimeUtc)

/-- `hasRequiredIndicators` of `strategies.ts`: the row exists and the eleven
fields this gate actually checks are non-null (note: `macd` and `macdSignal`
are not among them). -/
def hasRequiredIndicators (ind : Option Indicator) : Bool :=
  match ind with
  | none => false
  | some i =>
      i.ema9.isSome && i.ema21.isSome && i.ema55.isSome && i.ema200.isSome &&
      i.bbUpper.isSome && i.bbMiddle.isSome && i.bbLower.isSome && i.bbWidth.isSome &&
      i.macdHist.isSome && i.atr.isSome && i.adx.isSome

/-- The per-confirmation additive score of `evaluateTrendContinuation`
(lines 81–114 of `strategies.ts`): fixed +20 base for the established bias,
then +25 EMA stack, +20 pullback-reclaim, +15 MACD-histogram agreement,
+20 ADX ≥ 18.  The TS source accumulates with `score +=`; the sum below adds
the same contributions under the same conditions. -/
def trendScore (direction : Direction) (latestClosed prevClosed : Candle)
    (e9 e21 e55 mh ax : ℚ) : Nat :=
  20 +
  (if (if direction = .long then e9 > e21 ∧ e21 > e55 else e9 < e21 ∧ e21 < e55)
    then 25 else 0) +
  (if (if direction = .long then
        (prevClosed.low ≤ e21 * 1.002 ∨ prevClosed.low ≤ e55 * 1.005) ∧
            latestClosed.close > e21
       else
        (prevClosed.high ≥ e21 * 0.998 ∨ prevClosed.high ≥ e55 * 0.995) ∧
            latestClosed.close < e21)
    then 20 else 0) +
  (if (if direction = .long then mh ≥ 0 else mh ≤ 0) then 15 else 0) +
  (if ax ≥ 18 then 20 else 0)

/-- The tail of `evaluateTrendContinuation` once the bias direction is fixed
(`strategies.ts` lines 81–133): accumulate the confirmation score and emit only
when it reaches the 40 floor, capped at 100. -/
def trendResult (direction : Direction) (latestClosed prevClosed : Candle)
    (e9 e21 e55 mh ax : ℚ) : Option StrategyResult :=
  let score := trendScore direction latestClosed prevClosed e9 e21 e55 mh ax
  if score < 40 then none
  else some ⟨"TREND_CONTINUATION", direction, min score 100⟩

/-- `evaluateTrendContinuation` of `strategies.ts` (lines 52–134).  The
unreachable `none` fallbacks correspond to list accesses / non-null assertions
that the preceding guards make safe in the TS source. -/
def evaluateTrendContinuation (input : StrategyInput) : Option StrategyResult :=
  if input.biasIndicators.length < 4 ∨ input.entryCandles.length < 2 then none else
  match input.entryCandles, input.biasIndicators with
  | latestClosed :: prevClosed :: _, latestBias :: _ :: _ :: bias3Ago :: _ =>
    match indicatorForCandle input.entryIndicators latestClosed with
    | none => none
    | some latestEntry =>
      match latestBias.ema200, bias3Ago.ema200 with
      | some biasEma200, some biasEma200Ago3 =>
        if ¬ hasRequiredIndicators (some latestEntry) then none else
        match latestEntry.ema9, latestEntry.ema21, latestEntry.ema55,
              latestEntry.macdHist, latestEntry.adx with
        | some e9, some e21, some e55, some mh, some ax =>
          -- NOTE: `closeBias` in the TS source is `latestClosed.close`, the
          -- latest ENTRY-timeframe close (not a bias-timeframe close).
          -- `longBias ? LONG : SHORT` after `if (!longBias && !shortBias)`.
          if latestClosed.close > biasEma200 ∧ biasEma200 > biasEma200Ago3 then
            trendResult .long latestClosed prevClosed e9 e21 e55 mh ax
          else if latestClosed.close < biasEma200 ∧ biasEma200 < biasEma200Ago3 then
            trendResult .short latestClosed prevClosed e9 e21 e55 mh ax
          else none
        | _, _, _, _, _ => none
      | _, _ => none
  | _, _ => none

/-- The non-null Bollinger-band widths among the 50 most recent entry-indicator
rows (`strategies.ts` line 149). -/
def bbWidths50 (entryIndicators : List Indicator) : List ℚ :=
  (entryIndicators.take 50).filterMap (fun i => i.bbWidth)

/-- Stable insertion into a sorted list: `x` goes before the first `y` with
`le x y`. -/
def insertSorted (le : α → α → Bool) (x : α) : List α → List α
  | [] => [x]
  | y :: ys => if le x y then x :: y :: ys else y :: insertSorted le x ys

/-- Stable insertion sort (the model of JavaScript's stable `Array.sort` and
of SQL `ORDER BY`). -/
def insertionSort (le : α → α → Bool) (l : List α) : List α :=
  l.foldr (insertSorted le) []

/-- The code's trailing median: sort ascending, pick index `⌊n / 2⌋`
(`strategies.ts` lines 151–152).  The `getD 0` default is unreachable at the
call site, which only uses the value after checking the list has ≥ 10
elements. -/
def medianBBWidth (entryIndicators : List Indicator) : ℚ :=
  let sorted := insertionSort (fun a b => decide (a ≤ b)) (bbWidths50 entryIndicators)
  (sorted.get? (sorted.length / 2)).getD 0

/-- `Math.max` over the highs of the 20-candle base range `slice(2, 22)`
(`strategies.ts` lines 156–157); the `0` default is unreachable (the caller
guarantees ≥ 24 candles). -/
def rangeHigh (entryCandles : List Candle) : ℚ :=
  match ((entryCandles.drop 2).take 20).map (fun c => c.high) with
  | [] => 0
  | x :: xs => xs.foldl max x

/-- `Math.min` over the lows of the 20-candle base range `slice(2, 22)`
(`strategies.ts` lines 156, 158). -/
def rangeLow (entryCandles : List Candle) : ℚ :=
  match ((entryCandles.drop 2).take 20).map (fun c => c.low) with
  | [] => 0
  | x :: xs => xs.foldl min x

/-- `evaluateRangeBreakout` of `strategies.ts` (lines 136–203). -/
def evaluateRangeBreakout (input : StrategyInput) : Option StrategyResult :=
  if input.entryCandles.length < 24 ∨ input.entryIndicators.length < 50 then none else
  match input.entryCandles with
  | latestClosed :: prevClosed :: _ =>
    match indicatorForCandle input.entryIndicators latestClosed with
    | none => none
    | some latestInd =>
      if ¬ hasRequiredIndicators (some latestInd) then none else
      match latestInd.adx, latestInd.bbWidth, latestInd.bbUpper, latestInd.bbLower with
      | some ax, some bw, some bbU, some bbL =>
        if ax > 18 then none else
        if (bbWidths50 input.entryIndicators).length < 10 then none else
        if bw ≥ medianBBWidth input.entryIndicators then none else
        if prevClosed.close > rangeHigh input.entryCandles ∧
           latestClosed.close > rangeHigh input.entryCandles ∧
           latestClosed.close ≥ bbU then
          some ⟨"RANGE_BREAKOUT", .long, min 70 100⟩
        else if prevClosed.close < rangeLow input.entryCandles ∧
           latestClosed.close < rangeLow input.entryCandles ∧
           latestClosed.close ≤ bbL then
          some ⟨"RANGE_BREAKOUT", .short, min 70 100⟩
        else none
      | _, _, _, _ => none
  | _ => none

/-- `evaluateStrategies` of `strategies.ts` (lines 40–50). -/
def evaluateStrategies (input : StrategyInput) : List StrategyResult :=
  (match evaluateTrendContinuation input with
   | some trend => [trend]
   | none => []) ++
  (match evaluateRangeBreakout input with
   | some breakout => [breakout]
   | none => [])

/-! ## Scanner pure helpers (`src/server/scanner.ts`) -/

/-- The two wall-clock-aligned timeframes the scanner works with. -/
inductive Timeframe where
  | m15
  | h1
deriving DecidableEq

/-- The timeframe's duration in milliseconds (`scanner.ts` line 22). -/
def Timeframe.ms : Timeframe → Nat
  | .m15 => 15 * 60 * 1000
  | .h1 => 60 * 60 * 1000

/-- `getLatestClosedCandle` of `scanner.ts` (lines 20–25): the first candle in
list order whose window has fully elapsed (`find` on a most-recent-first
series). The TS `if (!candles.length) return null` early-out coincides with
`find?` on `[]`. -/
def getLatestClosedCandle (candles : List Candle) (tf : Timeframe) (now : Nat) : Option Candle :=
  candles.find? (fun c => decide (c.datetimeUtc + tf.ms ≤ now))

/-- `msUntilNextMinuteBoundary` of `twelvedata.ts` (lines 52–55):
`Math.ceil(now / 60000) * 60000 - now` (the `Math.max(_, 0)` is subsumed by
truncated natural subtraction, since the ceiling is never below `now`). -/
def msUntilNextMinuteBoundary (nowMs : Nat) : Nat :=
  ((nowMs + 60000 - 1) / 60000) * 60000 - nowMs

/-- The wall-clock instant of the next one-minute boundary at or after `now`. -/
def nextMinuteBoundary (nowMs : Nat) : Nat :=
  nowMs + msUntilNextMinuteBoundary nowMs

/-! ## Alert sanitization (`src/server/alerter.ts`) -/

/-- A carriage-return or line-feed character (the `[\r\n]` regex class). -/
def isCrLf (c : Char) : Bool := c == '\r' || c == '\n'

/-- Whitespace stripped by JavaScript's `String.prototype.trim` (restricted to
the ASCII subset; the sanitizer claims only concern CR/LF and length). -/
def isJsSpace (c : Char) : Bool :=
  c == ' ' || c == '\t' || c == '\n' || c == '\r' ||
  c == '\x0b' || c == '\x0c'

/-- `.replace(/[\r\n]+/g, " ")`: each maximal run of CR/LF characters becomes
one space.  `inRun` records whether the previous character was part of such a
run. -/
def collapseCrLf : Bool → List Char → List Char
  | _, [] => []
  | inRun, c :: cs =>
      if isCrLf c then
        if inRun then collapseCrLf true cs
        else ' ' :: collapseCrLf true cs
      else c :: collapseCrLf false cs

/-- JavaScript `trim` on a character list: drop leading and trailing
whitespace. -/
def trimChars (l : List Char) : List Char :=
  ((l.dropWhile isJsSpace).reverse.dropWhile isJsSpace).reverse

/-- `safeString` of `alerter.ts` (lines 8–13) for string input:
`String(value ?? "").replace(/[\r\n]+/g, " ").trim().slice(0, max)`. -/
def safeString (value : String) (max : Nat) : String :=
  String.mk ((trimChars (collapseCrLf false value.data)).take max)

/-! ## Rate governor and vendor client (`src/server/twelvedata.ts`)

The client is asynchronous TS; it is embedded as state-passing over an
explicit `World`: a deterministic millisecond clock (`sleepFn` resumes exactly
after the requested delay), the shared `rateLimit` record, a scripted list of
HTTP responses consumed one per network call, a scripted list of jitter draws
(`Math.random() * 500`), and an observable event trace recording, in order,
completed budget waits, queue entries, and network sends.  The FIFO
serialization of `enqueueRequest` (lines 85–99) is a concurrency property; in
this single-request embedding it is visible only as the `enqueue` trace
event marking that the work entered the queue before any of its sends. -/

def PLAN_LIMIT_PER_MIN : Int := 610
def TARGET_CREDITS_PER_MIN : Int := 520
def MAX_RETRIES : Nat := 3

/-- The module-global `rateLimit` record of `twelvedata.ts` (lines 8–24). -/
structure RateLimitState where
  creditsUsed : Int
  creditsLeft : Int
  lastReset : Nat
  paused : Bool
  pauseUntil : Nat
  retryCount : Nat
deriving DecidableEq

/-- One scripted HTTP response for a single-endpoint call: status code, the
optional parsed `api-credits-used` / `api-credits-left` headers, and whether
the JSON body carries `status: "error"`. -/
structure VResp where
  status : Nat
  used : Option Int
  left : Option Int
  bodyIsError : Bool
deriving DecidableEq

/-- Observable client events. -/
inductive ClientEvent where
  | acquire
  | enqueue
  | send (endpoint : String)
deriving DecidableEq

/-- The deterministic execution environment threaded through the client. -/
structure World where
  gov : RateLimitState
  now : Nat
  responses : List VResp
  jitters : List Nat
  trace : List ClientEvent
deriving DecidableEq

/-- Deterministic model of `sleepFn`: the continuation resumes exactly `ms`
milliseconds later. -/
def sleepW (w : World) (ms : Nat) : World := { w with now := w.now + ms }

/-- `resetWindowIfNeeded` of `twelvedata.ts` (lines 41–50). -/
def resetWindowIfNeeded (w : World) : World :=
  if w.now - w.gov.lastReset > 60000 then
    { w with gov := { creditsUsed := 0, creditsLeft := PLAN_LIMIT_PER_MIN,
                      lastReset := w.now, paused := false, pauseUntil := 0, retryCount := 0 } }
  else w

/-- `waitForBudget` of `twelvedata.ts` (lines 61–76); the terminal `acquire`
event marks the wait completing (the caller may now send). -/
def waitForBudget (w : World) : World :=
  let w1 := resetWindowIfNeeded w
  let w2 :=
    if w1.gov.paused ∧ w1.now < w1.gov.pauseUntil then
      resetWindowIfNeeded (sleepW w1 (w1.gov.pauseUntil - w1.now))
    else w1
  let w3 :=
    if w2.gov.creditsUsed ≥ TARGET_CREDITS_PER_MIN ∨
       w2.gov.creditsLeft ≤ PLAN_LIMIT_PER_MIN - TARGET_CREDITS_PER_MIN then
      resetWindowIfNeeded (sleepW w2 (msUntilNextMinuteBoundary w2.now + 25))
    else w2
  { w3 with trace := w3.trace ++ [ClientEvent.acquire] }

/-- `updateRateLimit` of `twelvedata.ts` (lines 78–83): header-reported counts
override the local estimates when present. -/
def updateRateLimit (used left : Option Int) (w : World) : World :=
  let w1 := match used with
    | some u => { w with gov := { w.gov with creditsUsed := u } }
    | none => w
  match left with
  | some l => { w1 with gov := { w1.gov with creditsLeft := l } }
  | none => w1

/-- Outcome of a `requestWithRetry` call. -/
inductive ReqOutcome where
  | ok
  | httpErr (status : Nat)
  | vendorErr
  | exhausted
  | noScript
deriving DecidableEq

/-- The retry loop body of `requestWithRetry` (`twelvedata.ts` lines 105–146),
with the remaining attempt count as fuel.  Returns the final world, the number
of network calls performed, and the outcome (`exhausted` models falling out of
the loop and throwing the generic after-retries error; `noScript` marks
response-script exhaustion, a model artifact never reached in the theorems). -/
def runAttempts (endpoint : String) : Nat → World → World × Nat × ReqOutcome
  | 0, w => (w, 0, .exhausted)
  | fuel + 1, w =>
    let w1 := waitForBudget w
    match w1.responses with
    | [] => (w1, 0, .noScript)
    | r :: rest =>
      let w2 := { w1 with responses := rest, trace := w1.trace ++ [ClientEvent.send endpoint] }
      let w3 := updateRateLimit r.used r.left w2
      if r.status = 429 then
        let j := w3.jitters.headD 0
        let waitMs := msUntilNextMinuteBoundary w3.now + j
        let gov4 := { w3.gov with retryCount := w3.gov.retryCount + 1
                                  paused := true, pauseUntil := w3.now + waitMs }
        let w4 := { w3 with jitters := w3.jitters.tail, gov := gov4 }
        let result := runAttempts endpoint fuel (sleepW w4 waitMs)
        (result.1, result.2.1 + 1, result.2.2)
      else if ¬ (200 ≤ r.status ∧ r.status ≤ 299) then
        (w3, 1, .httpErr r.status)
      else if r.bodyIsError then
        (w3, 1, .vendorErr)
      else
        let w4 := if r.used = none then
            { w3 with gov := { w3.gov with creditsUsed := w3.gov.creditsUsed + 1 } }
          else w3
        let w5 := if r.left = none then
            { w4 with gov := { w4.gov with creditsLeft := max (w4.gov.creditsLeft - 1) 0 } }
          else w4
        (w5, 1, .ok)

/-- `requestWithRetry` of `twelvedata.ts` (lines 101–150): the work is wrapped
in `enqueueRequest` (the FIFO queue), then runs at most `MAX_RETRIES`
attempts. -/
def requestWithRetry (endpoint : String) (w : World) : World × Nat × ReqOutcome :=
  runAttempts endpoint MAX_RETRIES { w with trace := w.trace ++ [ClientEvent.enqueue] }

/-- One scripted reply for the batched multi-endpoint POST of
`fetchIndicatorPackBatch`: whether `fetch`/`res.json()` threw, `res.ok`, the
rate headers, and the length of the body's `data` array (`none` when `data`
is not an array). -/
structure BatchResp where
  threw : Bool
  ok : Bool
  used : Option Int
  left : Option Int
  dataLen : Option Nat
deriving DecidableEq

/-- `fetchIndicatorPackBatch` of `twelvedata.ts` (lines 178–207): performs the
POST directly — no `waitForBudget`, no `enqueueRequest` — and returns `none`
on any failure.  `updateRateLimit` runs only after an `ok` response. -/
def fetchIndicatorPackBatch (b : BatchResp) (w : World) : Option Nat × World :=
  let w1 := { w with trace := w.trace ++ [ClientEvent.send "batch"] }
  if b.threw then (none, w1)
  else if ¬ b.ok then (none, w1)
  else (b.dataLen, updateRateLimit b.used b.left w1)

/-- The nine endpoints of the sequential fallback of
`fetchAllIndicatorsForSymbol` (`twelvedata.ts` lines 241–249). -/
def fallbackEndpoints : List String :=
  ["time_series", "ema", "ema", "ema", "ema", "bbands", "macd", "atr", "adx"]

/-- Sequential fallback: issue the endpoint calls one after another through
`requestWithRetry`; a failure outcome propagates (the thrown error aborts the
remaining calls). -/
def runSequential : List String → World → World × ReqOutcome
  | [], w => (w, .ok)
  | e :: es, w =>
    match requestWithRetry e w with
    | (w1, _, .ok) => runSequential es w1
    | (w1, _, o) => (w1, o)

/-- `fetchAllIndicatorsForSymbol` of `twelvedata.ts` (lines 209–252): first the
batched POST; the batch result is used only when it is non-null with a `data`
array of at least 9 entries, otherwise the nine-call sequential fallback
runs. -/
def fetchAllIndicatorsForSymbol (b : BatchResp) (w : World) : World × ReqOutcome :=
  match fetchIndicatorPackBatch b w with
  | (some n, w1) =>
      if 9 ≤ n then (w1, .ok) else runSequential fallbackEndpoints w1
  | (none, w1) => runSequential fallbackEndpoints w1

/-- `true` when every network send in the event list is immediately preceded
by a completed budget wait (an `acquire` event); `afterAcquire` records
whether the previous event was an `acquire`. -/
def sendsGovernedSt (afterAcquire : Bool) : List ClientEvent → Bool
  | [] => true
  | ClientEvent.acquire :: rest => sendsGovernedSt true rest
  | ClientEvent.enqueue :: rest => sendsGovernedSt false rest
  | ClientEvent.send _ :: rest => afterAcquire && sendsGovernedSt false rest

/-- The `afterAcquire` state left by an event list. -/
def stateAfter (afterAcquire : Bool) : List ClientEvent → Bool
  | [] => afterAcquire
  | ClientEvent.acquire :: rest => stateAfter true rest
  | ClientEvent.enqueue :: rest => stateAfter false rest
  | ClientEvent.send _ :: rest => stateAfter false rest

/-! ## Storage snapshot and per-instrument pipeline (`src/server/scanner.ts`,
storage semantics from `DatabaseStorage` in the repository's storage module)

`processInstrument` is modelled for a single instrument over an explicit
storage snapshot; vendor fetches are scripted (`VendorData` per timeframe).
Keyed upserts follow the `onConflictDoUpdate` sets of `DatabaseStorage`:
candles and indicators replace every value column on conflict, signals refresh
score/reason/detection time but never `status`, scan progress replaces the
watermark.  Reads reproduce the `orderBy desc(datetimeUtc) limit n` queries. -/

/-- One raw vendor time-series bar (vendor JSON, already parsed). -/
structure VendorCandle where
  datetime : Nat
  openPrice : ℚ
  high : ℚ
  low : ℚ
  close : ℚ
  volume : Option ℚ
deriving DecidableEq

/-- One `(datetime, value)` row of a single-value indicator endpoint. -/
structure VendorPoint where
  datetime : Nat
  value : ℚ
deriving DecidableEq

/-- One row of the `bbands` endpoint. -/
structure VendorBB where
  datetime : Nat
  upper : ℚ
  middle : ℚ
  lower : ℚ
deriving DecidableEq

/-- One row of the `macd` endpoint. -/
structure VendorMacd where
  datetime : Nat
  line : ℚ
  sigLine : ℚ
  hist : ℚ
deriving DecidableEq

/-- The per-endpoint value arrays returned by `fetchAllIndicatorsForSymbol`. -/
structure VendorData where
  candles : List VendorCandle
  ema9 : List VendorPoint
  ema21 : List VendorPoint
  ema55 : List VendorPoint
  ema200 : List VendorPoint
  bbands : List VendorBB
  macd : List VendorMacd
  atr : List VendorPoint
  adx : List VendorPoint
deriving DecidableEq

/-- A stored signal row for the one modelled instrument (table `signals`). -/
structure SignalRow where
  timeframe : String
  strategy : String
  direction : Direction
  score : Nat
  candleDatetimeUtc : Nat
  status : String
deriving DecidableEq

/-- Storage snapshot for the one modelled instrument. -/
structure Store where
  candles15 : List Candle
  indicators15 : List Indicator
  candles1h : List Candle
  indicators1h : List Indicator
  progress15 : Option Nat
  signals : List SignalRow
deriving DecidableEq

/-- One storage write performed by the pipeline. -/
inductive WriteEvent where
  | wCandles (tf : Timeframe)
  | wIndicators (tf : Timeframe)
  | wSignal
  | wProgress
  | wAlert
deriving DecidableEq

/-- The settings fields `processInstrument` consults, plus whether the SMTP
transport is configured and the dispatch succeeds (external outcome). -/
structure ScanSettings where
  emailEnabled : Bool
  minScoreToAlert : Nat
  smtpOk : Bool
deriving DecidableEq

/-- Keyed upsert on `(instrumentId, timeframe, datetimeUtc)` — instrument and
timeframe are fixed per list, so the key is the timestamp; on conflict every
value column is replaced (`upsertCandles` / `upsertIndicators` of
`DatabaseStorage`). -/
def upsertByTime (key : α → Nat) (existing rows : List α) : List α :=
  rows.foldl (fun acc r =>
    if acc.any (fun c => key c == key r) then
      acc.map (fun c => if key c == key r then r else c)
    else acc ++ [r]) existing

/-- The indicator accumulation map of `ingestData` (`scanner.ts` lines
167–200): get-or-create the draft row for a timestamp (insertion order
preserved, as for a JS `Map`) and apply a field update. -/
def setDraft (m : List (Nat × Indicator)) (dt : Nat) (f : Indicator → Indicator) :
    List (Nat × Indicator) :=
  if m.any (fun p => p.1 == dt) then
    m.map (fun p => if p.1 == dt then (p.1, f p.2) else p)
  else m ++ [(dt, f ⟨dt, none, none, none, none, none, none, none, none, none, none, none, none, none⟩)]

/-- Merge all endpoint responses into indicator rows by timestamp
(`scanner.ts` lines 180–202).  `bbWidth` is `(upper − lower) / middle`,
computed as soon as the three bands are set (they are set together, so the
TS non-null guard always passes). -/
def accumulateIndicators (d : VendorData) : List Indicator :=
  let m : List (Nat × Indicator) := []
  let m := d.ema9.foldl (fun m v => setDraft m v.datetime (fun i => { i with ema9 := some v.value })) m
  let m := d.ema21.foldl (fun m v => setDraft m v.datetime (fun i => { i with ema21 := some v.value })) m
  let m := d.ema55.foldl (fun m v => setDraft m v.datetime (fun i => { i with ema55 := some v.value })) m
  let m := d.ema200.foldl (fun m v => setDraft m v.datetime (fun i => { i with ema200 := some v.value })) m
  let m := d.bbands.foldl (fun m v => setDraft m v.datetime (fun i =>
    { i with bbUpper := some v.upper, bbMiddle := some v.middle, bbLower := some v.lower
             bbWidth := some ((v.upper - v.lower) / v.middle) })) m
  let m := d.macd.foldl (fun m v => setDraft m v.datetime (fun i =>
    { i with macd := some v.line, macdSignal := some v.sigLine, macdHist := some v.hist })) m
  let m := d.atr.foldl (fun m v => setDraft m v.datetime (fun i => { i with atr := some v.value })) m
  let m := d.adx.foldl (fun m v => setDraft m v.datetime (fun i => { i with adx := some v.value })) m
  m.map (fun p => p.2)

/-- `ingestData` of `scanner.ts` (lines 146–205) for one timeframe: no candles
means an early return with no writes; otherwise upsert the candle rows, then
the accumulated indicator rows (the storage layer skips the write when the
row list is empty). -/
def ingestData (tf : Timeframe) (d : VendorData) (st : Store) : Store × List WriteEvent :=
  if d.candles.isEmpty then (st, [])
  else
    let candleRows : List Candle :=
      d.candles.map (fun c => ⟨c.datetime, c.openPrice, c.high, c.low, c.close, c.volume⟩)
    let indRows := accumulateIndicators d
    let st1 :=
      match tf with
      | .m15 => { st with candles15 := upsertByTime Candle.datetimeUtc st.candles15 candleRows
                          indicators15 := upsertByTime Indicator.datetimeUtc st.indicators15 indRows }
      | .h1 => { st with candles1h := upsertByTime Candle.datetimeUtc st.candles1h candleRows
                         indicators1h := upsertByTime Indicator.datetimeUtc st.indicators1h indRows }
    (st1, [WriteEvent.wCandles tf] ++ (if indRows.isEmpty then [] else [WriteEvent.wIndicators tf]))

/-- `getCandles` of `DatabaseStorage`: order by `datetimeUtc` descending,
limit `n`. -/
def readCandles (l : List Candle) (n : Nat) : List Candle :=
  (insertionSort (fun a b => decide (b.datetimeUtc ≤ a.datetimeUtc)) l).take n

/-- `getIndicators` of `DatabaseStorage`: order by `datetimeUtc` descending,
limit `n`. -/
def readIndicators (l : List Indicator) (n : Nat) : List Indicator :=
  (insertionSort (fun a b => decide (b.datetimeUtc ≤ a.datetimeUtc)) l).take n

/-- `indicatorsCompleteForCandle` of `scanner.ts` (lines 27–30). -/
def indicatorsCompleteForCandle (candle : Candle) (indicators : List Indicator) : Bool :=
  hasRequiredIndicators (indicators.find? (fun i => i.datetimeUtc == candle.datetimeUtc))

/-- `findActiveSignal` of `DatabaseStorage`: first stored signal matching
timeframe/strategy/direction with status `"NEW"` (instrument fixed). -/
def findActiveSignal (st : Store) (tf strategy : String) (dir : Direction) : Option SignalRow :=
  st.signals.find? (fun s =>
    s.timeframe == tf && s.strategy == strategy && decide (s.direction = dir) && s.status == "NEW")

/-- `upsertSignal` of `DatabaseStorage`: keyed by
`(timeframe, strategy, direction, candleDatetimeUtc)`; on conflict only
score / reason / detection time are refreshed — `status` is preserved.
Returns the stored row (the post-upsert `returning()` row). -/
def upsertSignal (st : Store) (row : SignalRow) : Store × SignalRow :=
  let sameKey := fun s : SignalRow =>
    s.timeframe == row.timeframe && s.strategy == row.strategy &&
    decide (s.direction = row.direction) && s.candleDatetimeUtc == row.candleDatetimeUtc
  match st.signals.find? sameKey with
  | some old =>
      let merged := { old with score := row.score }
      ({ st with signals := st.signals.map (fun s => if sameKey s then merged else s) }, merged)
  | none => ({ st with signals := st.signals ++ [row] }, row)

/-- `sendSignalAlert` of `alerter.ts` (lines 72–118) reduced to its storage
effects: with no SMTP transport it only logs; otherwise it records an
`AlertEvent` and on success flips the signal status to `"ALERTED"`. -/
def sendSignalAlert (cfg : ScanSettings) (st : Store) (sig : SignalRow) : Store × List WriteEvent :=
  if ¬ cfg.smtpOk then (st, [])
  else
    let st1 := { st with signals := st.signals.map (fun s =>
      if s.timeframe == sig.timeframe && s.strategy == sig.strategy &&
         decide (s.direction = sig.direction) && s.candleDatetimeUtc == sig.candleDatetimeUtc
      then { s with status := "ALERTED" } else s) }
    (st1, [WriteEvent.wAlert])

/-- The per-result persistence loop of `processInstrument`
(`scanner.ts` lines 250–273). -/
def persistResults (cfg : ScanSettings) (barUtc : Nat) :
    List StrategyResult → Store → Store × Nat × List WriteEvent
  | [], st => (st, 0, [])
  | r :: rs, st =>
    match findActiveSignal st "15m" r.strategy r.direction with
    | some _ => persistResults cfg barUtc rs st
    | none =>
      let up := upsertSignal st ⟨"15m", r.strategy, r.direction, r.score, barUtc, "NEW"⟩
      let alerted :=
        if cfg.emailEnabled ∧ up.2.status = "NEW" ∧ cfg.minScoreToAlert ≤ r.score then
          sendSignalAlert cfg up.1 up.2
        else (up.1, [])
      let rec1 := persistResults cfg barUtc rs alerted.1
      (rec1.1, rec1.2.1 + 1, WriteEvent.wSignal :: alerted.2 ++ rec1.2.2)

/-- `processInstrument` of `scanner.ts` (lines 207–278): ingest both
timeframes, read back the series, locate the latest closed bar per timeframe,
apply the ScanProgress watermark guard, filter forming bars out of the
evaluation series, apply the indicator-completeness gate, evaluate, persist
and alert, advance the watermark.  Returns the storage snapshot, the signal
count, and the ordered write events. -/
def processInstrument (instrumentId : Nat) (d15 d1h : VendorData) (cfg : ScanSettings)
    (now : Nat) (st : Store) : Store × Nat × List WriteEvent :=
  let ing15 := ingestData .m15 d15 st
  let ing1h := ingestData .h1 d1h ing15.1
  let stB := ing1h.1
  let evI := ing15.2 ++ ing1h.2
  let entryCandles := readCandles stB.candles15 100
  let entryIndicators := readIndicators stB.indicators15 100
  let biasCandles := readCandles stB.candles1h 20
  let biasIndicators := readIndicators stB.indicators1h 20
  match getLatestClosedCandle entryCandles .m15 now,
        getLatestClosedCandle biasCandles .h1 now with
  | some latestClosedEntry, some latestClosedBias =>
    if (match stB.progress15 with
        | some wm => decide (latestClosedEntry.datetimeUtc ≤ wm)
        | none => false) then
      (stB, 0, evI)
    else
      let entryForEval := entryCandles.filter
        (fun c => decide (c.datetimeUtc ≤ latestClosedEntry.datetimeUtc))
      let biasForEval := biasCandles.filter
        (fun c => decide (c.datetimeUtc ≤ latestClosedBias.datetimeUtc))
      if entryForEval.isEmpty ∨ biasForEval.isEmpty then (stB, 0, evI)
      else if ¬ indicatorsCompleteForCandle latestClosedEntry entryIndicators then
        -- structured data-quality event is logged; no storage write
        (stB, 0, evI)
      else
        let results := evaluateStrategies
          ⟨instrumentId, entryForEval, entryIndicators, biasForEval, biasIndicators, "15m"⟩
        let persisted := persistResults cfg latestClosedEntry.datetimeUtc results stB
        let st2 := { persisted.1 with progress15 := some latestClosedEntry.datetimeUtc }
        (st2, persisted.2.1, evI ++ persisted.2.2 ++ [WriteEvent.wProgress])
  | _, _ => (stB, 0, evI)

/-! ## Scan cycle (`runScanCycle`, `scanner.ts` lines 85–144)

Per-instrument processing is abstracted as an oracle outcome (`.ok n` =
`processInstrument` returned `n` signals; `.error m` = it threw message `m`),
and the only modelled pre-loop fallible step is `getEnabledInstruments`. -/

/-- Burst slicing: `instruments.slice(i, i + maxPerBurst)` for
`i = 0, maxPerBurst, …`. -/
def burstChunks (maxPerBurst : Nat) : List α → List (List α)
  | [] => []
  | x :: xs => (x :: xs.take (maxPerBurst - 1)) :: burstChunks maxPerBurst (xs.drop (maxPerBurst - 1))
termination_by l => l.length
decreasing_by simp; omega

/-- The finalized `ScanRun` record (status and the structured notes fields the
claims mention). -/
structure ScanRunRec where
  status : String
  failures : List String
  processedCount : Nat
  signalCount : Nat
  errMessage : Option String
deriving DecidableEq

/-- The inner instrument loop: failures are caught and recorded individually;
successes bump the processed and signal counters. -/
def processBursts (bursts : List (List (Except String Nat))) : Nat × Nat × List String :=
  bursts.foldl (fun acc burst =>
    burst.foldl (fun acc outcome =>
      match outcome with
      | .ok k => (acc.1 + 1, acc.2.1 + k, acc.2.2)
      | .error m => (acc.1, acc.2.1, acc.2.2 ++ [m])) acc) (0, 0, [])

/-- `runScanCycle` of `scanner.ts` (lines 85–144): the in-flight guard, the
burst loop with individually caught per-instrument failures, the aggregate
status finalization, and the `finally` release of the guard.  `fetched` is
the outcome of `getEnabledInstruments` together with the per-instrument
processing outcomes; a `.error` models an exception escaping the
per-instrument try/catch.  Returns `(isScanning after the call, the finalized
ScanRun if one was created)`. -/
def runScanCycle (fetched : Except String (List (Except String Nat)))
    (maxPerBurst : Nat) (isScanning : Bool) : Bool × Option ScanRunRec :=
  if isScanning then (isScanning, none)
  else
    match fetched with
    | .error m => (false, some ⟨"error", [], 0, 0, some m⟩)
    | .ok outcomes =>
      let agg := processBursts (burstChunks maxPerBurst outcomes)
      (false, some ⟨if agg.2.2.isEmpty then "completed" else "completed_with_errors",
                    agg.2.2, agg.1, agg.2.1, none⟩)

/-! ## Supporting lemmas -/

theorem collapseCrLf_no_crlf (l : List Char) : ∀ (b : Bool), ∀ c ∈ collapseCrLf b l, c ≠ '\r' ∧ c ≠ '\n' := by
  induction l with
  | nil => intro b c hc; simp [collapseCrLf] at hc
  | cons x xs ih =>
    intro b c hc
    simp only [collapseCrLf] at hc
    by_cases hx : isCrLf x
    · rw [if_pos hx] at hc
      cases b with
      | true => exact ih true c hc
      | false =>
        simp only [if_neg Bool.false_ne_true, List.mem_cons] at hc
        rcases hc with rfl | hc
        · exact ⟨by decide, by decide⟩
        · exact ih true c hc
    · rw [if_neg hx] at hc
      rcases List.mem_cons.mp hc with rfl | hc
      · simp only [isCrLf, Bool.or_eq_true, beq_iff_eq, not_or] at hx
        exact hx
      · exact ih false c hc

theorem trimChars_subset (l : List Char) : ∀ c ∈ trimChars l, c ∈ l := by
  intro c hc
  unfold trimChars at hc
  rw [List.mem_reverse] at hc
  have h1 := (List.dropWhile_sublist (l := (l.dropWhile isJsSpace).reverse)
    (p := isJsSpace)).subset hc
  rw [List.mem_reverse] at h1
  exact (List.dropWhile_sublist (l := l) (p := isJsSpace)).subset h1

/-- **C10** — For every input string and length cap, `safeString` returns a
string with zero carriage-return and zero line-feed characters whose length is
at most the cap. -/
theorem C10_safeString_sanitizes (value : String) (max : Nat) :
    (safeString value max).length ≤ max ∧
    ∀ c ∈ (safeString value max).data, c ≠ '\r' ∧ c ≠ '\n' := by
  constructor
  · exact List.length_take_le max _
  · intro c hc
    have h1 : c ∈ trimChars (collapseCrLf false value.data) := List.mem_of_mem_take hc
    have h2 := trimChars_subset _ c h1
    exact collapseCrLf_no_crlf value.data false c h2

/-- **C10** witness — evaluation of the sanitizer theorem's clauses at a
concrete CR/LF-laden string. -/
theorem C10_safeString_sanitizes_witness :
    (safeString "ab\r\ncd\n" 5).length ≤ 5 ∧ ('a' ≠ '\r' ∧ 'a' ≠ '\n') :=
  ⟨(C10_safeString_sanitizes "ab\r\ncd\n" 5).1,
   (C10_safeString_sanitizes "ab\r\ncd\n" 5).2 'a' (by decide)⟩

/-- **C7** counterexample — the claim quantifies over *every* candle list, but
`getLatestClosedCandle` takes the first list entry whose window has elapsed:
on an oldest-first list `[old, recent]` with both bars closed it returns the
*older* bar, not the most recent qualifying one. -/
theorem C7_counterexample :
    getLatestClosedCandle [⟨0, 1, 1, 1, 1, none⟩, ⟨900000, 1, 1, 1, 1, none⟩] .m15 2000000 =
      some ⟨0, 1, 1, 1, 1, none⟩ ∧
    (0 : Nat) < 900000 ∧ 900000 + Timeframe.ms .m15 ≤ 2000000 := by
  refine ⟨?_, by decide, by decide⟩
  decide

/-- **C7** (amended: the series is ordered most-recent-first, as every stored
candle series in this system is) — `getLatestClosedCandle` returns `none`
exactly when no candle's window has elapsed, and otherwise returns a candle of
the list whose window end is at or before `now` and whose open time is maximal
among all such candles; a still-forming bar is never returned. -/
theorem C7_getLatestClosedCandle_correct (candles : List Candle) (tf : Timeframe) (now : Nat)
    (hsorted : candles.Pairwise (fun a b => b.datetimeUtc ≤ a.datetimeUtc)) :
    (getLatestClosedCandle candles tf now = none ↔
      ∀ c ∈ candles, now < c.datetimeUtc + tf.ms) ∧
    ∀ c, getLatestClosedCandle candles tf now = some c →
      c ∈ candles ∧ c.datetimeUtc + tf.ms ≤ now ∧
      ∀ c' ∈ candles, c'.datetimeUtc + tf.ms ≤ now → c'.datetimeUtc ≤ c.datetimeUtc := by
  constructor
  · unfold getLatestClosedCandle
    rw [List.find?_eq_none]
    constructor
    · intro h c hc
      have := h c hc
      simp only [decide_eq_true_eq] at this
      omega
    · intro h c hc
      simpa using Nat.not_le.mpr (h c hc)
  · induction candles with
    | nil => intro c hc; simp [getLatestClosedCandle] at hc
    | cons x xs ih =>
      intro c hc
      rw [List.pairwise_cons] at hsorted
      unfold getLatestClosedCandle at hc
      rw [List.find?_cons] at hc
      by_cases hx : decide (x.datetimeUtc + tf.ms ≤ now) = true
      · simp only [hx] at hc
        injection hc with hc
        subst hc
        simp only [decide_eq_true_eq] at hx
        refine ⟨List.mem_cons_self _ _, hx, ?_⟩
        intro c' hc' _
        rcases List.mem_cons.mp hc' with rfl | hmem
        · exact le_refl _
        · exact hsorted.1 c' hmem
      · rw [Bool.not_eq_true] at hx
        simp only [hx] at hc
        obtain ⟨hmem, hclosed, hmax⟩ := ih hsorted.2 c hc
        refine ⟨List.mem_cons_of_mem _ hmem, hclosed, ?_⟩
        intro c' hc' hcl'
        rcases List.mem_cons.mp hc' with rfl | hmem'
        · exact absurd (decide_eq_true hcl') (by simp [hx])
        · exact hmax c' hmem' hcl'

/-- **C7** witness — the amended theorem applied to the repository's own unit
test input: series `[10:00Z, 09:45Z]` at `now = 10:10Z` yields the 09:45 bar,
a closed one. -/
theorem C7_getLatestClosedCandle_correct_witness :
    (⟨1704102300000, 1, 1, 1, 1, none⟩ : Candle).datetimeUtc + Timeframe.ms .m15 ≤ 1704103800000 := by
  have h : getLatestClosedCandle
      [⟨1704103200000, 1, 1, 1, 1, none⟩, ⟨1704102300000, 1, 1, 1, 1, none⟩] .m15 1704103800000 =
      some ⟨1704102300000, 1, 1, 1, 1, none⟩ := by decide
  exact ((C7_getLatestClosedCandle_correct
    [⟨1704103200000, 1, 1, 1, 1, none⟩, ⟨1704102300000, 1, 1, 1, 1, none⟩] .m15 1704103800000
    (by decide)).2 _ h).2.1

theorem ingestData_signals (tf : Timeframe) (d : VendorData) (st : Store) :
    (ingestData tf d st).1.signals = st.signals := by
  unfold ingestData
  split
  · rfl
  · cases tf <;> rfl

theorem ingestData_progress (tf : Timeframe) (d : VendorData) (st : Store) :
    (ingestData tf d st).1.progress15 = st.progress15 := by
  unfold ingestData
  split
  · rfl
  · cases tf <;> rfl

theorem ingestData_events (tf : Timeframe) (d : VendorData) (st : Store) :
    ∀ ev ∈ (ingestData tf d st).2, ev = WriteEvent.wCandles tf ∨ ev = WriteEvent.wIndicators tf := by
  unfold ingestData
  split
  · simp
  · intro ev hev
    simp only [List.cons_append, List.nil_append, List.mem_cons] at hev
    rcases hev with rfl | h2
    · exact Or.inl rfl
    · right
      revert h2
      split <;> simp

/-- Under an incomplete indicator row for the latest closed entry bar, the
pipeline stops at the data-quality gate (or one of the earlier skip guards):
the post-ingestion store is returned unchanged with zero signals. -/
theorem processInstrument_skips_of_incomplete (instrumentId : Nat) (d15 d1h : VendorData)
    (cfg : ScanSettings) (now : Nat) (st : Store) (c : Candle)
    (hlc : getLatestClosedCandle
      (readCandles (ingestData .h1 d1h (ingestData .m15 d15 st).1).1.candles15 100) .m15 now = some c)
    (hgate : indicatorsCompleteForCandle c
      (readIndicators (ingestData .h1 d1h (ingestData .m15 d15 st).1).1.indicators15 100) = false) :
    processInstrument instrumentId d15 d1h cfg now st =
      ((ingestData .h1 d1h (ingestData .m15 d15 st).1).1, 0,
       (ingestData .m15 d15 st).2 ++ (ingestData .h1 d1h (ingestData .m15 d15 st).1).2) := by
  simp only [processInstrument]
  rw [hlc]
  cases hB : getLatestClosedCandle
      (readCandles (ingestData .h1 d1h (ingestData .m15 d15 st).1).1.candles1h 20) .h1 now with
  | none => rfl
  | some cb =>
    dsimp only
    split
    · rfl
    · split
      · rfl
      · rw [hgate]
        simp

/-- **C3** counterexample — a row whose MACD *line* and *signal* are null but
whose other eleven derived fields are set passes `hasRequiredIndicators`, so a
row is not required to have all fields of the claim's twelve-field list
(which includes MACD line and signal) non-null. -/
theorem C3_counterexample :
    hasRequiredIndicators (some ⟨0, some 1, some 1, some 1, some 1, some 1, some 1, some 1,
      some 1, none, none, some 1, some 1, some 1⟩) = true ∧
    (⟨0, some 1, some 1, some 1, some 1, some 1, some 1, some 1,
      some 1, none, none, some 1, some 1, some 1⟩ : Indicator).macd = none ∧
    (⟨0, some 1, some 1, some 1, some 1, some 1, some 1, some 1,
      some 1, none, none, some 1, some 1, some 1⟩ : Indicator).macdSignal = none := by
  decide

/-- **C3** (amended: the gate checks the *eleven* fields EMA 9/21/55/200,
Bollinger upper/middle/lower/width, MACD histogram, ATR and ADX — MACD line
and signal are not checked) — a missing row or any null among those eleven
fields makes `hasRequiredIndicators` false, and when the latest closed entry
bar's row fails the gate, `processInstrument` skips evaluation: zero signals,
stored signals and watermark untouched, and no signal/progress/alert write —
missing values are never defaulted. -/
theorem C3_indicator_gate :
    hasRequiredIndicators none = false ∧
    (∀ ind : Indicator, hasRequiredIndicators (some ind) = true ↔
      (ind.ema9 ≠ none ∧ ind.ema21 ≠ none ∧ ind.ema55 ≠ none ∧ ind.ema200 ≠ none ∧
       ind.bbUpper ≠ none ∧ ind.bbMiddle ≠ none ∧ ind.bbLower ≠ none ∧ ind.bbWidth ≠ none ∧
       ind.macdHist ≠ none ∧ ind.atr ≠ none ∧ ind.adx ≠ none)) ∧
    (∀ (instrumentId : Nat) (d15 d1h : VendorData) (cfg : ScanSettings) (now : Nat)
       (st : Store) (c : Candle),
      getLatestClosedCandle
        (readCandles (ingestData .h1 d1h (ingestData .m15 d15 st).1).1.candles15 100) .m15 now = some c →
      indicatorsCompleteForCandle c
        (readIndicators (ingestData .h1 d1h (ingestData .m15 d15 st).1).1.indicators15 100) = false →
      (processInstrument instrumentId d15 d1h cfg now st).2.1 = 0 ∧
      (processInstrument instrumentId d15 d1h cfg now st).1.signals = st.signals ∧
      (processInstrument instrumentId d15 d1h cfg now st).1.progress15 = st.progress15 ∧
      ∀ ev ∈ (processInstrument instrumentId d15 d1h cfg now st).2.2,
        ev ≠ WriteEvent.wSignal ∧ ev ≠ WriteEvent.wProgress ∧ ev ≠ WriteEvent.wAlert) := by
  refine ⟨rfl, ?_, ?_⟩
  · intro ind
    simp [hasRequiredIndicators, Option.isSome_iff_ne_none, and_assoc]
  · intro instrumentId d15 d1h cfg now st c hlc hgate
    rw [processInstrument_skips_of_incomplete instrumentId d15 d1h cfg now st c hlc hgate]
    refine ⟨rfl, ?_, ?_, ?_⟩
    · rw [ingestData_signals, ingestData_signals]
    · rw [ingestData_progress, ingestData_progress]
    · intro ev hev
      rcases List.mem_append.mp hev with h | h
      · rcases ingestData_events _ _ _ ev h with rfl | rfl <;> exact ⟨by simp, by simp, by simp⟩
      · rcases ingestData_events _ _ _ ev h with rfl | rfl <;> exact ⟨by simp, by simp, by simp⟩

/-- Concrete vendor payload for the C3 witness: one bare candle, no indicator
rows at all (a vendor partial response). -/
def vendorOnlyCandle_c3 : VendorData := ⟨[⟨0, 1, 1, 1, 1, none⟩], [], [], [], [], [], [], [], []⟩

/-- **C3** witness — the amended theorem applied to a concrete partial vendor
response: the 15m bar at epoch 0 is closed at `now = 4000000` but has no
indicator row, so evaluation is skipped with zero signals. -/
theorem C3_indicator_gate_witness :
    (processInstrument 1 vendorOnlyCandle_c3 vendorOnlyCandle_c3 ⟨false, 60, false⟩ 4000000
      ⟨[], [], [], [], none, []⟩).2.1 = 0 :=
  (C3_indicator_gate.2.2 1 vendorOnlyCandle_c3 vendorOnlyCandle_c3 ⟨false, 60, false⟩ 4000000
    ⟨[], [], [], [], none, []⟩ ⟨0, 1, 1, 1, 1, none⟩ (by decide) (by decide)).1

/-- The per-instrument failure messages of a cycle, in processing order. -/
def failureMessages (outcomes : List (Except String Nat)) : List String :=
  outcomes.filterMap (fun o => match o with | .error m => some m | .ok _ => none)

/-- The number of successfully processed instruments. -/
def okCount (outcomes : List (Except String Nat)) : Nat :=
  (outcomes.filterMap (fun o => match o with | .ok k => some k | .error _ => none)).length

/-- The total signal count over successfully processed instruments. -/
def okSignalSum (outcomes : List (Except String Nat)) : Nat :=
  (outcomes.filterMap (fun o => match o with | .ok k => some k | .error _ => none)).sum

theorem burstChunks_join (n : Nat) (l : List α) : (burstChunks n l).flatten = l := by
  induction l using burstChunks.induct n with
  | case1 => rw [burstChunks]; rfl
  | case2 x xs ih =>
    rw [burstChunks, List.flatten_cons, ih, List.cons_append, List.take_append_drop]

theorem processBursts_inner (l : List (Except String Nat)) :
    ∀ acc : Nat × Nat × List String,
      l.foldl (fun acc outcome =>
        match outcome with
        | .ok k => (acc.1 + 1, acc.2.1 + k, acc.2.2)
        | .error m => (acc.1, acc.2.1, acc.2.2 ++ [m])) acc =
      (acc.1 + okCount l, acc.2.1 + okSignalSum l, acc.2.2 ++ failureMessages l) := by
  induction l with
  | nil => intro acc; simp [okCount, okSignalSum, failureMessages]
  | cons x xs ih =>
    intro acc
    cases x with
    | ok k =>
      rw [List.foldl_cons]
      dsimp only
      rw [ih]
      simp [okCount, okSignalSum, failureMessages, List.filterMap_cons]
      omega
    | error m =>
      rw [List.foldl_cons]
      dsimp only
      rw [ih]
      simp [okCount, okSignalSum, failureMessages, List.filterMap_cons]

theorem processBursts_eq (bursts : List (List (Except String Nat))) :
    processBursts bursts =
      (okCount bursts.flatten, okSignalSum bursts.flatten, failureMessages bursts.flatten) := by
  unfold processBursts
  suffices h : ∀ acc : Nat × Nat × List String,
      bursts.foldl (fun acc burst =>
        burst.foldl (fun acc outcome =>
          match outcome with
          | .ok k => (acc.1 + 1, acc.2.1 + k, acc.2.2)
          | .error m => (acc.1, acc.2.1, acc.2.2 ++ [m])) acc) acc =
      (acc.1 + okCount bursts.flatten, acc.2.1 + okSignalSum bursts.flatten,
       acc.2.2 ++ failureMessages bursts.flatten) by
    rw [h (0, 0, [])]
    simp
  induction bursts with
  | nil => intro acc; simp [okCount, okSignalSum, failureMessages]
  | cons b bs ih =>
    intro acc
    rw [List.foldl_cons, processBursts_inner, ih]
    simp [okCount, okSignalSum, failureMessages, List.flatten_cons, List.filterMap_append]
    omega

/-- **C9** — During one `runScanCycle` (entered with the in-flight guard
free): per-instrument failures are each caught and recorded, in order, without
aborting the remaining instruments; the finalized ScanRun status is
`"completed"` exactly when zero instruments failed and
`"completed_with_errors"` otherwise, while a cycle-level exception (modelled
on the instrument fetch) finalizes the run as `"error"` with the message; in
every case the in-flight guard is released (`false` after the call). -/
theorem C9_runScanCycle_aggregation :
    (∀ (outcomes : List (Except String Nat)) (maxPerBurst : Nat), 1 ≤ maxPerBurst →
      runScanCycle (Except.ok outcomes) maxPerBurst false =
        (false, some ⟨if failureMessages outcomes = [] then "completed" else "completed_with_errors",
                      failureMessages outcomes, okCount outcomes, okSignalSum outcomes, none⟩)) ∧
    (∀ (m : String) (maxPerBurst : Nat),
      runScanCycle (Except.error m) maxPerBurst false =
        (false, some ⟨"error", [], 0, 0, some m⟩)) := by
  constructor
  · intro outcomes maxPerBurst _
    simp only [runScanCycle]
    have h := processBursts_eq (burstChunks maxPerBurst outcomes)
    rw [burstChunks_join] at h
    rw [h]
    simp [List.isEmpty_iff]
  · intro m maxPerBurst
    rfl

/-- **C9** witness — a cycle over three instruments where the middle one
fails: processing continues, the failure is recorded, the run finalizes as
`completed_with_errors`, and the guard is released. -/
theorem C9_runScanCycle_aggregation_witness :
    runScanCycle (Except.ok [Except.ok 1, Except.error "x", Except.ok 2]) 2 false =
      (false, some ⟨"completed_with_errors", ["x"], 2, 3, none⟩) :=
  (C9_runScanCycle_aggregation.1 [Except.ok 1, Except.error "x", Except.ok 2] 2
    (by decide)).trans (by decide)

@[simp] theorem sleepW_now (w : World) (ms : Nat) : (sleepW w ms).now = w.now + ms := rfl

@[simp] theorem resetWindowIfNeeded_now (w : World) : (resetWindowIfNeeded w).now = w.now := by
  unfold resetWindowIfNeeded; split <;> rfl

@[simp] theorem resetWindowIfNeeded_responses (w : World) :
    (resetWindowIfNeeded w).responses = w.responses := by
  unfold resetWindowIfNeeded; split <;> rfl

@[simp] theorem resetWindowIfNeeded_jitters (w : World) :
    (resetWindowIfNeeded w).jitters = w.jitters := by
  unfold resetWindowIfNeeded; split <;> rfl

@[simp] theorem resetWindowIfNeeded_trace (w : World) :
    (resetWindowIfNeeded w).trace = w.trace := by
  unfold resetWindowIfNeeded; split <;> rfl

@[simp] theorem updateRateLimit_responses (used left : Option Int) (w : World) :
    (updateRateLimit used left w).responses = w.responses := by
  unfold updateRateLimit; cases used <;> cases left <;> rfl

@[simp] theorem updateRateLimit_jitters (used left : Option Int) (w : World) :
    (updateRateLimit used left w).jitters = w.jitters := by
  unfold updateRateLimit; cases used <;> cases left <;> rfl

@[simp] theorem updateRateLimit_now (used left : Option Int) (w : World) :
    (updateRateLimit used left w).now = w.now := by
  unfold updateRateLimit; cases used <;> cases left <;> rfl

@[simp] theorem updateRateLimit_trace (used left : Option Int) (w : World) :
    (updateRateLimit used left w).trace = w.trace := by
  unfold updateRateLimit; cases used <;> cases left <;> rfl

theorem resetWindowIfNeeded_id (w : World) (h : w.now ≤ w.gov.lastReset + 60000) :
    resetWindowIfNeeded w = w := by
  unfold resetWindowIfNeeded
  rw [if_neg]
  omega

/-- **C5** counterexample — the claim says no request attempt proceeds until
*strictly after* the pause-until timestamp.  But `waitForBudget` first runs
`resetWindowIfNeeded`, and a window rollover (more than one minute past the
governor's last reset) clears the pause: with the window started at 100 ms, a
throttle pause until 60400 ms, and an acquire at 60200 ms, the wait returns at
60200 ms — before the pause-until timestamp. -/
theorem C5_counterexample :
    (waitForBudget ⟨⟨3, 607, 100, true, 60400, 1⟩, 60200, [], [], []⟩).now = 60200 ∧
    (⟨⟨3, 607, 100, true, 60400, 1⟩, 60200, [], [], []⟩ : World).gov.paused = true ∧
    60200 < 60400 := by
  refine ⟨?_, rfl, by decide⟩
  decide

/-- **C5** (amended: deferral holds within the current rate window — once the
window rolls over, counters and the pause are deliberately reset) — for any
governor state whose window has not rolled over (`now` at most one minute past
`lastReset`): (a) if the pause branch is inert and the local usage has reached
the target (520) or the vendor-reported remainder is at or below the plan
headroom (610 − 520), `waitForBudget` does not return before the next
one-minute wall-clock boundary; (b) if the governor is paused, `waitForBudget`
does not return before the pause-until timestamp (it may return exactly at
it). -/
theorem C5_waitForBudget_defers (w : World)
    (hlr : w.gov.lastReset ≤ w.now) (hwin : w.now ≤ w.gov.lastReset + 60000) :
    (¬ (w.gov.paused = true ∧ w.now < w.gov.pauseUntil) →
      (TARGET_CREDITS_PER_MIN ≤ w.gov.creditsUsed ∨
       w.gov.creditsLeft ≤ PLAN_LIMIT_PER_MIN - TARGET_CREDITS_PER_MIN) →
      nextMinuteBoundary w.now ≤ (waitForBudget w).now) ∧
    (w.gov.paused = true → w.gov.pauseUntil ≤ (waitForBudget w).now) := by
  have h1 : resetWindowIfNeeded w = w := resetWindowIfNeeded_id w hwin
  constructor
  · intro hpause hbudget
    simp only [waitForBudget]
    rw [h1, if_neg hpause, if_pos hbudget]
    show nextMinuteBoundary w.now ≤ (resetWindowIfNeeded (sleepW w _)).now
    rw [resetWindowIfNeeded_now, sleepW_now, nextMinuteBoundary]
    omega
  · intro hpaused
    simp only [waitForBudget]
    rw [h1]
    by_cases hlt : w.now < w.gov.pauseUntil
    · rw [if_pos (show w.gov.paused = true ∧ w.now < w.gov.pauseUntil from ⟨hpaused, hlt⟩)]
      have h2 : (resetWindowIfNeeded (sleepW w (w.gov.pauseUntil - w.now))).now =
          w.gov.pauseUntil := by
        rw [resetWindowIfNeeded_now, sleepW_now]
        omega
      split
      · simp [h2]
        omega
      · simp [h2]
        omega
    · rw [if_neg (not_and.mpr (fun _ => hlt))]
      split
      · simp
        omega
      · omega

/-- **C5** witness — a governor at the credit target inside the current
window, paused with the pause already expired: the next acquire defers past
the minute boundary (and trivially past the pause timestamp). -/
theorem C5_waitForBudget_defers_witness :
    (¬ ((⟨⟨520, 90, 10000, true, 5000, 0⟩, 30000, [], [], []⟩ : World).gov.paused = true ∧
        (30000 : Nat) < 5000) →
      (TARGET_CREDITS_PER_MIN ≤ (520 : Int) ∨
       (90 : Int) ≤ PLAN_LIMIT_PER_MIN - TARGET_CREDITS_PER_MIN) →
      nextMinuteBoundary 30000 ≤
        (waitForBudget ⟨⟨520, 90, 10000, true, 5000, 0⟩, 30000, [], [], []⟩).now) ∧
    ((⟨⟨520, 90, 10000, true, 5000, 0⟩, 30000, [], [], []⟩ : World).gov.paused = true →
      (5000 : Nat) ≤ (waitForBudget ⟨⟨520, 90, 10000, true, 5000, 0⟩, 30000, [], [], []⟩).now) :=
  C5_waitForBudget_defers ⟨⟨520, 90, 10000, true, 5000, 0⟩, 30000, [], [], []⟩
    (by decide) (by decide)

@[simp] theorem sleepW_responses (w : World) (ms : Nat) : (sleepW w ms).responses = w.responses := rfl

@[simp] theorem sleepW_jitters (w : World) (ms : Nat) : (sleepW w ms).jitters = w.jitters := rfl

@[simp] theorem sleepW_trace (w : World) (ms : Nat) : (sleepW w ms).trace = w.trace := rfl

@[simp] theorem waitForBudget_responses (w : World) :
    (waitForBudget w).responses = w.responses := by
  simp only [waitForBudget]
  split <;> split <;> simp

@[simp] theorem waitForBudget_jitters (w : World) :
    (waitForBudget w).jitters = w.jitters := by
  simp only [waitForBudget]
  split <;> split <;> simp

@[simp] theorem waitForBudget_trace (w : World) :
    (waitForBudget w).trace = w.trace ++ [ClientEvent.acquire] := by
  simp only [waitForBudget]
  split <;> split <;> simp

/-- One unfolding of the retry loop on a throttling response: the governor is
paused (pause-until = now + boundary wait + jitter, retry counter bumped) and
the loop recurses on the remaining fuel after sleeping out the pause. -/
theorem runAttempts_throttle_step (e : String) (fuel : Nat) (w : World) (r : VResp)
    (rest : List VResp) (hw : w.responses = r :: rest) (h429 : r.status = 429) :
    runAttempts e (fuel + 1) w =
      (let w1 := waitForBudget w
       let w2 := { w1 with responses := rest, trace := w1.trace ++ [ClientEvent.send e] }
       let w3 := updateRateLimit r.used r.left w2
       let waitMs := msUntilNextMinuteBoundary w3.now + w3.jitters.headD 0
       let gov4 := { w3.gov with retryCount := w3.gov.retryCount + 1
                                 paused := true, pauseUntil := w3.now + waitMs }
       let retried := runAttempts e fuel (sleepW { w3 with jitters := w3.jitters.tail, gov := gov4 } waitMs)
       (retried.1, retried.2.1 + 1, retried.2.2)) := by
  conv_lhs => rw [runAttempts]
  have hresp : (waitForBudget w).responses = r :: rest := by rw [waitForBudget_responses, hw]
  rw [hresp]
  dsimp only
  rw [if_pos h429]

/-- A non-throttling HTTP error terminates the attempt loop at once. -/
theorem runAttempts_httpErr (e : String) (fuel : Nat) (w : World) (r : VResp)
    (rest : List VResp) (hw : w.responses = r :: rest) (h429 : r.status ≠ 429)
    (hok : ¬ (200 ≤ r.status ∧ r.status ≤ 299)) :
    (runAttempts e (fuel + 1) w).2 = (1, ReqOutcome.httpErr r.status) := by
  conv_lhs => rw [runAttempts]
  have hresp : (waitForBudget w).responses = r :: rest := by rw [waitForBudget_responses, hw]
  rw [hresp]
  dsimp only
  rw [if_neg h429, if_pos hok]

/-- A vendor-reported logical error terminates the attempt loop at once. -/
theorem runAttempts_vendorErr (e : String) (fuel : Nat) (w : World) (r : VResp)
    (rest : List VResp) (hw : w.responses = r :: rest) (hok : 200 ≤ r.status ∧ r.status ≤ 299)
    (hbody : r.bodyIsError = true) :
    (runAttempts e (fuel + 1) w).2 = (1, ReqOutcome.vendorErr) := by
  conv_lhs => rw [runAttempts]
  have hresp : (waitForBudget w).responses = r :: rest := by rw [waitForBudget_responses, hw]
  rw [hresp]
  dsimp only
  have h429 : ¬ r.status = 429 := by omega
  rw [if_neg h429, if_neg (not_not_intro hok), if_pos hbody]

/-- **C6** — Within `requestWithRetry`: a throttling (429) response pauses the
governor (paused flag set, pause-until = now + boundary wait + jitter) and
retries the same request with one fewer of the `MAX_RETRIES = 3` attempts;
throttling surfaces to the caller only after all three attempts were throttled
(three 429 responses exhaust the loop); whereas a non-throttling HTTP error
status or a vendor body with `status: "error"` fails the request immediately
after a single network call, with no further attempts. -/
theorem C6_requestWithRetry_errors :
    (∀ (e : String) (w : World) (r : VResp) (rest : List VResp),
      w.responses = r :: rest → r.status ≠ 429 → ¬ (200 ≤ r.status ∧ r.status ≤ 299) →
      (requestWithRetry e w).2 = (1, ReqOutcome.httpErr r.status)) ∧
    (∀ (e : String) (w : World) (r : VResp) (rest : List VResp),
      w.responses = r :: rest → 200 ≤ r.status ∧ r.status ≤ 299 → r.bodyIsError = true →
      (requestWithRetry e w).2 = (1, ReqOutcome.vendorErr)) ∧
    (∀ (e : String) (w : World) (r : VResp) (rest : List VResp),
      w.responses = r :: rest → r.status = 429 →
      requestWithRetry e w =
        (let w1 := waitForBudget { w with trace := w.trace ++ [ClientEvent.enqueue] }
         let w2 := { w1 with responses := rest, trace := w1.trace ++ [ClientEvent.send e] }
         let w3 := updateRateLimit r.used r.left w2
         let waitMs := msUntilNextMinuteBoundary w3.now + w3.jitters.headD 0
         let gov4 := { w3.gov with retryCount := w3.gov.retryCount + 1
                                   paused := true, pauseUntil := w3.now + waitMs }
         let retried := runAttempts e 2 (sleepW { w3 with jitters := w3.jitters.tail, gov := gov4 } waitMs)
         (retried.1, retried.2.1 + 1, retried.2.2))) ∧
    (∀ (e : String) (w : World) (r1 r2 r3 : VResp) (rest : List VResp),
      w.responses = r1 :: r2 :: r3 :: rest →
      r1.status = 429 → r2.status = 429 → r3.status = 429 →
      (requestWithRetry e w).2 = (3, ReqOutcome.exhausted)) := by
  refine ⟨?_, ?_, ?_, ?_⟩
  · intro e w r rest hw h429 hok
    exact runAttempts_httpErr e 2 _ r rest (by simpa using hw) h429 hok
  · intro e w r rest hw hok hbody
    exact runAttempts_vendorErr e 2 _ r rest (by simpa using hw) hok hbody
  · intro e w r rest hw h429
    exact runAttempts_throttle_step e 2 _ r rest (by simpa using hw) h429
  · intro e w r1 r2 r3 rest hw h1 h2 h3
    unfold requestWithRetry MAX_RETRIES
    rw [runAttempts_throttle_step e 2 _ r1 (r2 :: r3 :: rest) (by simpa using hw) h1]
    dsimp only
    rw [runAttempts_throttle_step e 1 _ r2 (r3 :: rest) (by simp) h2]
    dsimp only
    rw [runAttempts_throttle_step e 0 _ r3 rest (by simp) h3]
    dsimp only
    rw [runAttempts]

/-- **C6** witness — concrete scripts: an HTTP 500 and a vendor logical error
each fail after exactly one call; a single 429 followed by a success retries
within the bounded attempts; three 429s exhaust all three attempts. -/
theorem C6_requestWithRetry_errors_witness :
    (requestWithRetry "ema" ⟨⟨0, 610, 0, false, 0, 0⟩, 5000, [⟨500, none, none, false⟩], [], []⟩).2 =
      (1, ReqOutcome.httpErr 500) ∧
    (requestWithRetry "ema" ⟨⟨0, 610, 0, false, 0, 0⟩, 5000, [⟨200, none, none, true⟩], [], []⟩).2 =
      (1, ReqOutcome.vendorErr) ∧
    (requestWithRetry "ema" ⟨⟨0, 610, 0, false, 0, 0⟩, 5000,
      [⟨429, none, none, false⟩, ⟨429, none, none, false⟩, ⟨429, none, none, false⟩],
      [7, 7, 7], []⟩).2 = (3, ReqOutcome.exhausted) := by
  refine ⟨?_, ?_, ?_⟩
  · exact C6_requestWithRetry_errors.1 "ema" _ ⟨500, none, none, false⟩ [] rfl
      (by decide) (by decide)
  · exact C6_requestWithRetry_errors.2.1 "ema" _ ⟨200, none, none, true⟩ [] rfl
      (by decide) rfl
  · exact C6_requestWithRetry_errors.2.2.2 "ema" _ ⟨429, none, none, false⟩
      ⟨429, none, none, false⟩ ⟨429, none, none, false⟩ [] rfl rfl rfl rfl

theorem sendsGovernedSt_append (l1 l2 : List ClientEvent) : ∀ b : Bool,
    sendsGovernedSt b (l1 ++ l2) =
      (sendsGovernedSt b l1 && sendsGovernedSt (stateAfter b l1) l2) := by
  induction l1 with
  | nil => intro b; simp [sendsGovernedSt, stateAfter]
  | cons x xs ih =>
    intro b
    cases x with
    | acquire =>
      simp only [List.cons_append, sendsGovernedSt, stateAfter, List.append_eq]
      exact ih true
    | enqueue =>
      simp only [List.cons_append, sendsGovernedSt, stateAfter, List.append_eq]
      exact ih false
    | send e =>
      simp only [List.cons_append, sendsGovernedSt, stateAfter, List.append_eq]
      rw [ih false, Bool.and_assoc]

theorem runAttempts_trace (e : String) : ∀ (fuel : Nat) (w : World),
    ∃ Δ, (runAttempts e fuel w).1.trace = w.trace ++ Δ ∧
      ∀ b : Bool, sendsGovernedSt b Δ = true := by
  intro fuel
  induction fuel with
  | zero =>
    intro w
    exact ⟨[], by simp [runAttempts], fun b => rfl⟩
  | succ n ih =>
    intro w
    rw [runAttempts]
    cases hr : (waitForBudget w).responses with
    | nil =>
      refine ⟨[ClientEvent.acquire], by simp, fun b => rfl⟩
    | cons r rest =>
      dsimp only
      by_cases h429 : r.status = 429
      · rw [if_pos h429]
        dsimp only
        obtain ⟨Δr, hΔr, hgov⟩ := ih _
        refine ⟨ClientEvent.acquire :: ClientEvent.send e :: Δr, ?_, ?_⟩
        · rw [hΔr]
          simp
        · intro b
          simpa [sendsGovernedSt] using hgov false
      · rw [if_neg h429]
        split
        · refine ⟨[ClientEvent.acquire, ClientEvent.send e], by simp, fun b => rfl⟩
        · split
          · refine ⟨[ClientEvent.acquire, ClientEvent.send e], by simp, fun b => rfl⟩
          · refine ⟨[ClientEvent.acquire, ClientEvent.send e], ?_, fun b => rfl⟩
            dsimp only
            split <;> split <;> simp

theorem requestWithRetry_trace (e : String) (w : World) :
    ∃ Δ, (requestWithRetry e w).1.trace = w.trace ++ ClientEvent.enqueue :: Δ ∧
      ∀ b : Bool, sendsGovernedSt b (ClientEvent.enqueue :: Δ) = true := by
  obtain ⟨Δ, hΔ, hgov⟩ := runAttempts_trace e MAX_RETRIES
    { w with trace := w.trace ++ [ClientEvent.enqueue] }
  refine ⟨Δ, ?_, ?_⟩
  · rw [requestWithRetry, hΔ]
    simp
  · intro b
    simpa [sendsGovernedSt] using hgov false

theorem runSequential_trace : ∀ (es : List String) (w : World),
    ∃ Δ, (runSequential es w).1.trace = w.trace ++ Δ ∧
      ∀ b : Bool, sendsGovernedSt b Δ = true := by
  intro es
  induction es with
  | nil => intro w; exact ⟨[], by simp [runSequential], fun b => rfl⟩
  | cons e es ih =>
    intro w
    obtain ⟨Δ1, hΔ1, hgov1⟩ := requestWithRetry_trace e w
    rcases hq : requestWithRetry e w with ⟨w1, n, o⟩
    have hw1 : w1.trace = w.trace ++ ClientEvent.enqueue :: Δ1 := by
      rw [← hΔ1, hq]
    rw [runSequential, hq]
    cases o with
    | ok =>
      dsimp only
      obtain ⟨Δ2, hΔ2, hgov2⟩ := ih w1
      refine ⟨(ClientEvent.enqueue :: Δ1) ++ Δ2, ?_, ?_⟩
      · rw [hΔ2, hw1, List.append_assoc]
      · intro b
        rw [sendsGovernedSt_append, hgov1, hgov2, Bool.and_true]
    | httpErr s => exact ⟨ClientEvent.enqueue :: Δ1, by simpa using hw1, hgov1⟩
    | vendorErr => exact ⟨ClientEvent.enqueue :: Δ1, by simpa using hw1, hgov1⟩
    | exhausted => exact ⟨ClientEvent.enqueue :: Δ1, by simpa using hw1, hgov1⟩
    | noScript => exact ⟨ClientEvent.enqueue :: Δ1, by simpa using hw1, hgov1⟩

theorem fetchIndicatorPackBatch_trace (b : BatchResp) (w : World) :
    (fetchIndicatorPackBatch b w).2.trace = w.trace ++ [ClientEvent.send "batch"] := by
  unfold fetchIndicatorPackBatch
  split_ifs <;> simp

/-- **C4** counterexample — a successful batched multi-endpoint request: the
whole `fetchAllIndicatorsForSymbol` call performs exactly one network send
(the batch POST) with no budget wait and no queue entry anywhere in the trace,
so the batched path bypasses the governor and the FIFO queue. -/
theorem C4_counterexample :
    (fetchAllIndicatorsForSymbol ⟨false, true, none, none, some 9⟩
      ⟨⟨0, 610, 0, false, 0, 0⟩, 5000, [], [], []⟩).1.trace = [ClientEvent.send "batch"] ∧
    ClientEvent.acquire ∉ (fetchAllIndicatorsForSymbol ⟨false, true, none, none, some 9⟩
      ⟨⟨0, 610, 0, false, 0, 0⟩, 5000, [], [], []⟩).1.trace ∧
    ClientEvent.enqueue ∉ (fetchAllIndicatorsForSymbol ⟨false, true, none, none, some 9⟩
      ⟨⟨0, 610, 0, false, 0, 0⟩, 5000, [], [], []⟩).1.trace := by
  refine ⟨by decide, by decide, by decide⟩

/-- **C4** (amended: every request issued through `requestWithRetry` — the
single-endpoint fetches and the nine-call sequential fallback — first enters
the FIFO queue and waits on the governor's budget check before each network
send; the batch POST of `fetchIndicatorPackBatch` is the one exception: it is
sent outside the queue and without a budget wait, and only feeds the response
headers back into the governor) — formally: a `requestWithRetry` trace is an
`enqueue` followed by events in which every send is immediately preceded by a
budget acquire; a `fetchAllIndicatorsForSymbol` trace is the ungoverned batch
send followed by such a governed suffix. -/
theorem C4_governed_paths :
    (∀ (e : String) (w : World),
      ∃ Δ, (requestWithRetry e w).1.trace = w.trace ++ ClientEvent.enqueue :: Δ ∧
        sendsGovernedSt false (ClientEvent.enqueue :: Δ) = true) ∧
    (∀ (b : BatchResp) (w : World),
      ∃ Δ, (fetchAllIndicatorsForSymbol b w).1.trace =
          w.trace ++ ClientEvent.send "batch" :: Δ ∧
        sendsGovernedSt false Δ = true) := by
  constructor
  · intro e w
    obtain ⟨Δ, hΔ, hgov⟩ := requestWithRetry_trace e w
    exact ⟨Δ, hΔ, hgov false⟩
  · intro b w
    have hbt := fetchIndicatorPackBatch_trace b w
    unfold fetchAllIndicatorsForSymbol
    rcases hB : fetchIndicatorPackBatch b w with ⟨obatch, w1⟩
    have hw1 : w1.trace = w.trace ++ [ClientEvent.send "batch"] := by
      rw [← hbt, hB]
    cases obatch with
    | some k =>
      dsimp only
      split
      · exact ⟨[], by simpa using hw1, rfl⟩
      · obtain ⟨Δ, hΔ, hgov⟩ := runSequential_trace fallbackEndpoints w1
        refine ⟨Δ, ?_, hgov false⟩
        rw [hΔ, hw1]
        simp
    | none =>
      dsimp only
      obtain ⟨Δ, hΔ, hgov⟩ := runSequential_trace fallbackEndpoints w1
      refine ⟨Δ, ?_, hgov false⟩
      rw [hΔ, hw1]
      simp

/-- When the ScanProgress watermark is already at or past every candidate
latest-closed entry bar, `processInstrument` returns right after ingestion. -/
theorem processInstrument_watermark_skip (instrumentId : Nat) (d15 d1h : VendorData)
    (cfg : ScanSettings) (now : Nat) (st : Store) (wm : Nat)
    (hwm : st.progress15 = some wm)
    (hlc : ∀ c, getLatestClosedCandle
      (readCandles (ingestData .h1 d1h (ingestData .m15 d15 st).1).1.candles15 100) .m15 now =
        some c → c.datetimeUtc ≤ wm) :
    processInstrument instrumentId d15 d1h cfg now st =
      ((ingestData .h1 d1h (ingestData .m15 d15 st).1).1, 0,
       (ingestData .m15 d15 st).2 ++ (ingestData .h1 d1h (ingestData .m15 d15 st).1).2) := by
  simp only [processInstrument]
  cases hE : getLatestClosedCandle
      (readCandles (ingestData .h1 d1h (ingestData .m15 d15 st).1).1.candles15 100) .m15 now with
  | none => rfl
  | some c =>
    cases hB : getLatestClosedCandle
        (readCandles (ingestData .h1 d1h (ingestData .m15 d15 st).1).1.candles1h 20) .h1 now with
    | none => rfl
    | some cb =>
      dsimp only
      have hp : (ingestData .h1 d1h (ingestData .m15 d15 st).1).1.progress15 = some wm := by
        rw [ingestData_progress, ingestData_progress, hwm]
      rw [hp]
      dsimp only
      rw [if_pos (decide_eq_true (hlc c hE))]

/-- Concrete vendor payload for C8: one bare candle per timeframe — the
unchanged data a second scan of the same bar would re-fetch. -/
def vendorRepeat_c8 : VendorData := ⟨[⟨0, 1, 1, 1, 1, none⟩], [], [], [], [], [], [], [], []⟩

/-- Storage snapshot after a first processing of the bar at epoch 0: candles
ingested and the 15m watermark advanced to that bar. -/
def storeAfterFirst_c8 : Store :=
  ⟨[⟨0, 1, 1, 1, 1, none⟩], [], [⟨0, 1, 1, 1, 1, none⟩], [], some 0, []⟩

/-- **C8** counterexample — the claim promises *zero additional Storage
writes* on the second call, but re-processing an instrument whose watermark is
already at the latest closed bar still re-ingests: the second call performs
two candle-upsert writes (15m and 1h) even though it yields zero signals. -/
theorem C8_counterexample :
    storeAfterFirst_c8.progress15 = some 0 ∧
    getLatestClosedCandle
      (readCandles (ingestData .h1 vendorRepeat_c8
        (ingestData .m15 vendorRepeat_c8 storeAfterFirst_c8).1).1.candles15 100) .m15 4000000 =
      some ⟨0, 1, 1, 1, 1, none⟩ ∧
    (processInstrument 1 vendorRepeat_c8 vendorRepeat_c8 ⟨false, 60, false⟩ 4000000
      storeAfterFirst_c8).2.1 = 0 ∧
    (processInstrument 1 vendorRepeat_c8 vendorRepeat_c8 ⟨false, 60, false⟩ 4000000
      storeAfterFirst_c8).2.2 =
      [WriteEvent.wCandles .m15, WriteEvent.wCandles .h1] := by
  refine ⟨rfl, by decide, by decide, by decide⟩

/-- **C8** (amended: with the watermark at or past the latest closed entry
bar, the second call yields zero additional signals and performs no signal,
scan-progress or alert write — its only storage writes are the candle /
indicator re-ingestion upserts, and stored signals and the watermark are
unchanged) — formally, under the watermark guard the call returns the
post-ingestion store with zero signals and only ingestion write events. -/
theorem C8_watermark_idempotent (instrumentId : Nat) (d15 d1h : VendorData)
    (cfg : ScanSettings) (now : Nat) (st : Store) (wm : Nat)
    (hwm : st.progress15 = some wm)
    (hlc : ∀ c, getLatestClosedCandle
      (readCandles (ingestData .h1 d1h (ingestData .m15 d15 st).1).1.candles15 100) .m15 now =
        some c → c.datetimeUtc ≤ wm) :
    (processInstrument instrumentId d15 d1h cfg now st).2.1 = 0 ∧
    (processInstrument instrumentId d15 d1h cfg now st).1.signals = st.signals ∧
    (processInstrument instrumentId d15 d1h cfg now st).1.progress15 = st.progress15 ∧
    ∀ ev ∈ (processInstrument instrumentId d15 d1h cfg now st).2.2,
      ev ≠ WriteEvent.wSignal ∧ ev ≠ WriteEvent.wProgress ∧ ev ≠ WriteEvent.wAlert := by
  rw [processInstrument_watermark_skip instrumentId d15 d1h cfg now st wm hwm hlc]
  refine ⟨rfl, ?_, ?_, ?_⟩
  · rw [ingestData_signals, ingestData_signals]
  · rw [ingestData_progress, ingestData_progress]
  · intro ev hev
    rcases List.mem_append.mp hev with h | h
    · rcases ingestData_events _ _ _ ev h with rfl | rfl <;> exact ⟨by simp, by simp, by simp⟩
    · rcases ingestData_events _ _ _ ev h with rfl | rfl <;> exact ⟨by simp, by simp, by simp⟩

/-- **C8** witness — the amended theorem applied to the concrete second call
of the counterexample scenario: zero signals, stored signals and watermark
unchanged. -/
theorem C8_watermark_idempotent_witness :
    (processInstrument 1 vendorRepeat_c8 vendorRepeat_c8 ⟨false, 60, false⟩ 4000000
      storeAfterFirst_c8).2.1 = 0 ∧
    (processInstrument 1 vendorRepeat_c8 vendorRepeat_c8 ⟨false, 60, false⟩ 4000000
      storeAfterFirst_c8).1.signals = storeAfterFirst_c8.signals :=
  ⟨(C8_watermark_idempotent 1 vendorRepeat_c8 vendorRepeat_c8 ⟨false, 60, false⟩ 4000000
      storeAfterFirst_c8 0 rfl (by decide)).1,
   (C8_watermark_idempotent 1 vendorRepeat_c8 vendorRepeat_c8 ⟨false, 60, false⟩ 4000000
      storeAfterFirst_c8 0 rfl (by decide)).2.1⟩

theorem trendResult_strategy (direction : Direction) (latestClosed prevClosed : Candle)
    (e9 e21 e55 mh ax : ℚ) (r : StrategyResult)
    (h : trendResult direction latestClosed prevClosed e9 e21 e55 mh ax = some r) :
    r.strategy = "TREND_CONTINUATION" := by
  simp only [trendResult] at h
  split at h
  all_goals cases h <;> rfl

theorem evaluateTrendContinuation_strategy (input : StrategyInput) (r : StrategyResult)
    (h : evaluateTrendContinuation input = some r) : r.strategy = "TREND_CONTINUATION" := by
  unfold evaluateTrendContinuation at h
  repeat' split at h
  all_goals first
    | (cases h <;> rfl)
    | (exact trendResult_strategy _ _ _ _ _ _ _ _ _ h)

theorem evaluateRangeBreakout_strategy (input : StrategyInput) (r : StrategyResult)
    (h : evaluateRangeBreakout input = some r) : r.strategy = "RANGE_BREAKOUT" := by
  unfold evaluateRangeBreakout at h
  repeat' split at h
  all_goals cases h <;> rfl

/-- **C1** — With ≥ 24 entry candles (`c0` latest, `c1` previous), ≥ 50 entry
indicator rows, and a complete indicator row matched to the latest candle,
`evaluateRangeBreakout` emits exactly when: ADX ≤ 18, at least 10 of the 50
most recent BB widths are non-null and the latest width is strictly below
their median, and both the previous and latest closes exceed the range high
(max high over the 20 candles at indices 2..21) with the latest close at or
beyond the BB upper band — direction LONG — or symmetrically below the range
low with the latest close at or below the BB lower band — direction SHORT
(LONG takes precedence); an emitted result scores exactly 70, and a
RANGE_BREAKOUT result appears in `evaluateStrategies` output exactly when
`evaluateRangeBreakout` emits it. -/
theorem C1_rangeBreakout_characterization
    (input : StrategyInput) (c0 c1 : Candle) (crest : List Candle) (ind : Indicator)
    (ax bw bbU bbL : ℚ)
    (hc : input.entryCandles = c0 :: c1 :: crest)
    (hlen : 24 ≤ input.entryCandles.length)
    (hilen : 50 ≤ input.entryIndicators.length)
    (hfind : indicatorForCandle input.entryIndicators c0 = some ind)
    (hreq : hasRequiredIndicators (some ind) = true)
    (hax : ind.adx = some ax) (hbw : ind.bbWidth = some bw)
    (hbbU : ind.bbUpper = some bbU) (hbbL : ind.bbLower = some bbL) :
    (evaluateRangeBreakout input =
      if ax ≤ 18 ∧ 10 ≤ (bbWidths50 input.entryIndicators).length ∧
          bw < medianBBWidth input.entryIndicators ∧
          c1.close > rangeHigh input.entryCandles ∧ c0.close > rangeHigh input.entryCandles ∧
          c0.close ≥ bbU
       then some ⟨"RANGE_BREAKOUT", Direction.long, 70⟩
       else if ax ≤ 18 ∧ 10 ≤ (bbWidths50 input.entryIndicators).length ∧
          bw < medianBBWidth input.entryIndicators ∧
          c1.close < rangeLow input.entryCandles ∧ c0.close < rangeLow input.entryCandles ∧
          c0.close ≤ bbL
       then some ⟨"RANGE_BREAKOUT", Direction.short, 70⟩
       else none) ∧
    (∀ res : StrategyResult,
      (res ∈ evaluateStrategies input ∧ res.strategy = "RANGE_BREAKOUT") ↔
        evaluateRangeBreakout input = some res) := by
  constructor
  · unfold evaluateRangeBreakout
    rw [hc] at hlen ⊢
    rw [if_neg (by omega)]
    dsimp only
    rw [hfind]
    dsimp only
    rw [if_neg (by rw [hreq]; exact fun hf => hf rfl)]
    rw [hax, hbw, hbbU, hbbL]
    dsimp only
    have hmin : (min 70 100 : Nat) = 70 := rfl
    rw [hmin]
    rcases le_or_lt ax 18 with h1 | h1
    · rw [if_neg (not_lt.mpr h1)]
      rcases le_or_lt 10 (bbWidths50 input.entryIndicators).length with h2 | h2
      · rw [if_neg (by omega)]
        rcases lt_or_le bw (medianBBWidth input.entryIndicators) with h3 | h3
        · rw [if_neg (not_le.mpr h3)]
          by_cases hL : c1.close > rangeHigh (c0 :: c1 :: crest) ∧
              c0.close > rangeHigh (c0 :: c1 :: crest) ∧ c0.close ≥ bbU
          · rw [if_pos hL, if_pos ⟨h1, h2, h3, hL.1, hL.2.1, hL.2.2⟩]
          · have hL6 : ¬ (ax ≤ 18 ∧ 10 ≤ (bbWidths50 input.entryIndicators).length ∧
                bw < medianBBWidth input.entryIndicators ∧
                c1.close > rangeHigh (c0 :: c1 :: crest) ∧
                c0.close > rangeHigh (c0 :: c1 :: crest) ∧ c0.close ≥ bbU) :=
              fun hcond => hL ⟨hcond.2.2.2.1, hcond.2.2.2.2.1, hcond.2.2.2.2.2⟩
            rw [if_neg hL, if_neg hL6]
            by_cases hS : c1.close < rangeLow (c0 :: c1 :: crest) ∧
                c0.close < rangeLow (c0 :: c1 :: crest) ∧ c0.close ≤ bbL
            · rw [if_pos hS, if_pos ⟨h1, h2, h3, hS.1, hS.2.1, hS.2.2⟩]
            · have hS6 : ¬ (ax ≤ 18 ∧ 10 ≤ (bbWidths50 input.entryIndicators).length ∧
                  bw < medianBBWidth input.entryIndicators ∧
                  c1.close < rangeLow (c0 :: c1 :: crest) ∧
                  c0.close < rangeLow (c0 :: c1 :: crest) ∧ c0.close ≤ bbL) :=
                fun hcond => hS ⟨hcond.2.2.2.1, hcond.2.2.2.2.1, hcond.2.2.2.2.2⟩
              rw [if_neg hS, if_neg hS6]
        · have hL6 : ¬ (ax ≤ 18 ∧ 10 ≤ (bbWidths50 input.entryIndicators).length ∧
              bw < medianBBWidth input.entryIndicators ∧
              c1.close > rangeHigh (c0 :: c1 :: crest) ∧
              c0.close > rangeHigh (c0 :: c1 :: crest) ∧ c0.close ≥ bbU) :=
            fun hcond => absurd hcond.2.2.1 (not_lt.mpr h3)
          have hS6 : ¬ (ax ≤ 18 ∧ 10 ≤ (bbWidths50 input.entryIndicators).length ∧
              bw < medianBBWidth input.entryIndicators ∧
              c1.close < rangeLow (c0 :: c1 :: crest) ∧
              c0.close < rangeLow (c0 :: c1 :: crest) ∧ c0.close ≤ bbL) :=
            fun hcond => absurd hcond.2.2.1 (not_lt.mpr h3)
          rw [if_pos h3, if_neg hL6, if_neg hS6]
      · have hL6 : ¬ (ax ≤ 18 ∧ 10 ≤ (bbWidths50 input.entryIndicators).length ∧
            bw < medianBBWidth input.entryIndicators ∧
            c1.close > rangeHigh (c0 :: c1 :: crest) ∧
            c0.close > rangeHigh (c0 :: c1 :: crest) ∧ c0.close ≥ bbU) :=
          fun hcond => absurd hcond.2.1 (by omega)
        have hS6 : ¬ (ax ≤ 18 ∧ 10 ≤ (bbWidths50 input.entryIndicators).length ∧
            bw < medianBBWidth input.entryIndicators ∧
            c1.close < rangeLow (c0 :: c1 :: crest) ∧
            c0.close < rangeLow (c0 :: c1 :: crest) ∧ c0.close ≤ bbL) :=
          fun hcond => absurd hcond.2.1 (by omega)
        rw [if_pos h2, if_neg hL6, if_neg hS6]
    · have hL6 : ¬ (ax ≤ 18 ∧ 10 ≤ (bbWidths50 input.entryIndicators).length ∧
          bw < medianBBWidth input.entryIndicators ∧
          c1.close > rangeHigh (c0 :: c1 :: crest) ∧
          c0.close > rangeHigh (c0 :: c1 :: crest) ∧ c0.close ≥ bbU) :=
        fun hcond => absurd hcond.1 (not_le.mpr h1)
      have hS6 : ¬ (ax ≤ 18 ∧ 10 ≤ (bbWidths50 input.entryIndicators).length ∧
          bw < medianBBWidth input.entryIndicators ∧
          c1.close < rangeLow (c0 :: c1 :: crest) ∧
          c0.close < rangeLow (c0 :: c1 :: crest) ∧ c0.close ≤ bbL) :=
        fun hcond => absurd hcond.1 (not_le.mpr h1)
      rw [if_pos h1, if_neg hL6, if_neg hS6]
  · intro res
    constructor
    · rintro ⟨hmem, hstrat⟩
      unfold evaluateStrategies at hmem
      rcases List.mem_append.mp hmem with hm | hm
      · exfalso
        revert hm
        cases ht : evaluateTrendContinuation input with
        | none => simp
        | some tr =>
          intro hm
          rw [List.mem_singleton] at hm
          subst hm
          rw [evaluateTrendContinuation_strategy input res ht] at hstrat
          exact absurd hstrat (by decide)
      · revert hm
        cases hb : evaluateRangeBreakout input with
        | none => simp
        | some br =>
          intro hm
          rw [List.mem_singleton] at hm
          subst hm
          rfl
    · intro hb
      refine ⟨?_, evaluateRangeBreakout_strategy input res hb⟩
      unfold evaluateStrategies
      rw [hb]
      simp

/-- Concrete minimal breakout series for the C1 witness: 24 candles with the
two most recent closing above the 100.5 range high and at the Bollinger upper
band, 50 indicator rows in a squeeze (latest width 0.005 below the 0.02
median), ADX 10. -/
def wCands_c1 : List Candle :=
  (List.range 24).map (fun i =>
    ⟨10000 - i, 100, if i = 0 then 102 else if i = 1 then 101 else 100, 99,
     if i = 0 then 102 else if i = 1 then 101 else 100, none⟩)

/-- Concrete indicator rows for the C1 witness. -/
def wInds_c1 : List Indicator :=
  (List.range 50).map (fun i =>
    ⟨10000 - i, some 100, some 100, some 100, some 100, some 101, some 100, some 99,
     some (if i = 0 then 1 else 2), some 0, some 0, some 1, some 1, some 10⟩)

set_option maxRecDepth 20000 in
/-- **C1** witness — the characterization applied to the concrete squeeze
series: a LONG RANGE_BREAKOUT with score exactly 70 is emitted. -/
theorem C1_rangeBreakout_characterization_witness :
    evaluateRangeBreakout ⟨1, wCands_c1, wInds_c1, wCands_c1, wInds_c1, "15m"⟩ =
      some ⟨"RANGE_BREAKOUT", Direction.long, 70⟩ := by
  have h := (C1_rangeBreakout_characterization
    ⟨1, wCands_c1, wInds_c1, wCands_c1, wInds_c1, "15m"⟩
    ⟨10000, 100, 102, 99, 102, none⟩ ⟨9999, 100, 101, 99, 101, none⟩
    (wCands_c1.drop 2)
    ⟨10000, some 100, some 100, some 100, some 100, some 101, some 100, some 99,
     some 1, some 0, some 0, some 1, some 1, some 10⟩
    10 1 101 99
    (by decide) (by decide) (by decide) (by decide) (by decide)
    (by decide) (by decide) (by decide) (by decide)).1
  rw [h, if_pos]
  refine ⟨by decide, by decide, by decide, by decide, by decide, by decide⟩

/-- Evaluation input refuting C2's bias definition: the latest *bias* close
(110) is above the bias EMA200 (100) which is above its value three rows prior
(99) — so by the claim a LONG bias is established, and with ADX 20 (≥ 18) and
a non-negative MACD histogram the claim predicts an emitted signal of score
20 + 15 + 20 = 55.  But the latest *entry* close is 90, below the EMA200. -/
def cexInput_c2 : StrategyInput :=
  ⟨1,
   [⟨1000, 90, 91, 89, 90, none⟩, ⟨999, 90, 91, 89, 90, none⟩],
   [⟨1000, some 100, some 100, some 100, some 100, some 101, some 100, some 99,
     some 1, some 0, some 0, some 1, some 1, some 20⟩],
   [⟨500, 100, 111, 109, 110, none⟩],
   [⟨500, none, none, none, some 100, none, none, none, none, none, none, none, none, none⟩,
    ⟨400, none, none, none, some 100, none, none, none, none, none, none, none, none, none⟩,
    ⟨300, none, none, none, some 100, none, none, none, none, none, none, none, none, none⟩,
    ⟨200, none, none, none, some 99, none, none, none, none, none, none, none, none, none⟩],
   "15m"⟩

/-- **C2** counterexample — the bias comparison in the code uses the latest
*entry* close, not the latest *bias* close: here the bias close (110) is above
the rising bias EMA200 (100 > 99), ADX is 20 and the MACD histogram is
positive, so the claim predicts a TREND_CONTINUATION signal of score 55; the
code emits nothing because the latest entry close (90) is below the EMA200. -/
theorem C2_counterexample :
    cexInput_c2.biasCandles = [⟨500, 100, 111, 109, 110, none⟩] ∧
    (cexInput_c2.biasIndicators.get? 0).map (fun b => b.ema200) = some (some 100) ∧
    (cexInput_c2.biasIndicators.get? 3).map (fun b => b.ema200) = some (some 99) ∧
    ((110 : ℚ) > 100 ∧ (100 : ℚ) > 99) ∧
    evaluateStrategies cexInput_c2 = [] := by
  refine ⟨rfl, rfl, rfl, by decide, ?_⟩
  decide

/-- **C2** (amended: the bias direction is established from the latest
*entry-timeframe* close relative to the bias EMA200 — close above a rising
EMA200 (latest above its value three rows prior) ⇒ LONG, below a falling one
⇒ SHORT, otherwise no signal) — with ≥ 4 bias-indicator rows, ≥ 2 entry
candles, and a complete latest entry-indicator row, the TREND_CONTINUATION
score is 20 (bias base) plus exactly those of +25 (EMA 9/21/55 stacked),
+20 (pullback into the EMA21 zone within 0.2% or EMA55 zone within 0.5% with
the latest close reclaimed beyond EMA21), +15 (MACD histogram sign agrees),
+20 (ADX ≥ 18) whose conditions hold, capped at 100, and a result is emitted
iff the score is ≥ 40. -/
theorem C2_trendContinuation_characterization
    (input : StrategyInput) (c0 c1 : Candle) (crest : List Candle)
    (b0 b1 b2 b3 : Indicator) (brest : List Indicator) (ind : Indicator)
    (e9 e21 e55 mh ax be be3 : ℚ)
    (hb : input.biasIndicators = b0 :: b1 :: b2 :: b3 :: brest)
    (hc : input.entryCandles = c0 :: c1 :: crest)
    (hfind : indicatorForCandle input.entryIndicators c0 = some ind)
    (hreq : hasRequiredIndicators (some ind) = true)
    (he9 : ind.ema9 = some e9) (he21 : ind.ema21 = some e21) (he55 : ind.ema55 = some e55)
    (hmh : ind.macdHist = some mh) (hax : ind.adx = some ax)
    (hbe : b0.ema200 = some be) (hbe3 : b3.ema200 = some be3) :
    evaluateTrendContinuation input =
      if c0.close > be ∧ be > be3 then
        (if 20 + (if e9 > e21 ∧ e21 > e55 then 25 else 0) +
            (if (c1.low ≤ e21 * 1.002 ∨ c1.low ≤ e55 * 1.005) ∧ c0.close > e21 then 20 else 0) +
            (if mh ≥ 0 then 15 else 0) + (if ax ≥ 18 then 20 else 0) < 40 then none
         else some ⟨"TREND_CONTINUATION", Direction.long,
            min (20 + (if e9 > e21 ∧ e21 > e55 then 25 else 0) +
              (if (c1.low ≤ e21 * 1.002 ∨ c1.low ≤ e55 * 1.005) ∧ c0.close > e21 then 20 else 0) +
              (if mh ≥ 0 then 15 else 0) + (if ax ≥ 18 then 20 else 0)) 100⟩)
      else if c0.close < be ∧ be < be3 then
        (if 20 + (if e9 < e21 ∧ e21 < e55 then 25 else 0) +
            (if (c1.high ≥ e21 * 0.998 ∨ c1.high ≥ e55 * 0.995) ∧ c0.close < e21 then 20 else 0) +
            (if mh ≤ 0 then 15 else 0) + (if ax ≥ 18 then 20 else 0) < 40 then none
         else some ⟨"TREND_CONTINUATION", Direction.short,
            min (20 + (if e9 < e21 ∧ e21 < e55 then 25 else 0) +
              (if (c1.high ≥ e21 * 0.998 ∨ c1.high ≥ e55 * 0.995) ∧ c0.close < e21 then 20 else 0) +
              (if mh ≤ 0 then 15 else 0) + (if ax ≥ 18 then 20 else 0)) 100⟩)
      else none := by
  unfold evaluateTrendContinuation
  rw [hb, hc]
  rw [if_neg (by simp only [List.length_cons]; omega)]
  dsimp only
  rw [hfind]
  dsimp only
  rw [hbe, hbe3]
  dsimp only
  rw [if_neg (by rw [hreq]; exact fun hf => hf rfl)]
  rw [he9, he21, he55, hmh, hax]
  dsimp only
  by_cases hLb : c0.close > be ∧ be > be3
  · rw [if_pos hLb, if_pos hLb]
    simp only [trendResult, trendScore]
    norm_num
  · rw [if_neg hLb, if_neg hLb]
    by_cases hSb : c0.close < be ∧ be < be3
    · rw [if_pos hSb, if_pos hSb]
      simp only [trendResult, trendScore]
      have hdir : (Direction.short = Direction.long) = False :=
        eq_false (by decide)
      simp only [hdir, if_false]
    · rw [if_neg hSb, if_neg hSb]

/-- Witness input for C2: entry close 102 above a rising bias EMA200
(100 > 99), flat EMAs (no stack, no pullback reclaim issue because the
previous bar never dipped), positive MACD histogram, ADX 20: exactly the
base + MACD + ADX case. -/
def wInput_c2 : StrategyInput :=
  ⟨1,
   [⟨1000, 102, 106, 101, 102, none⟩, ⟨999, 102, 106, 105, 102, none⟩],
   [⟨1000, some 100, some 100, some 100, some 100, some 103, some 100, some 97,
     some 1, some 0, some 0, some 1, some 1, some 20⟩],
   [⟨500, 100, 111, 109, 110, none⟩],
   [⟨500, none, none, none, some 100, none, none, none, none, none, none, none, none, none⟩,
    ⟨400, none, none, none, some 100, none, none, none, none, none, none, none, none, none⟩,
    ⟨300, none, none, none, some 100, none, none, none, none, none, none, none, none, none⟩,
    ⟨200, none, none, none, some 99, none, none, none, none, none, none, none, none, none⟩],
   "15m"⟩

/-- **C2** witness — the amended characterization at the base + MACD + ADX
input: a LONG TREND_CONTINUATION signal with score exactly 55 = 20 + 15 + 20
is emitted. -/
theorem C2_trendContinuation_characterization_witness :
    evaluateTrendContinuation wInput_c2 =
      some ⟨"TREND_CONTINUATION", Direction.long, 55⟩ := by
  have h := C2_trendContinuation_characterization wInput_c2
    ⟨1000, 102, 106, 101, 102, none⟩ ⟨999, 102, 106, 105, 102, none⟩ []
    ⟨500, none, none, none, some 100, none, none, none, none, none, none, none, none, none⟩
    ⟨400, none, none, none, some 100, none, none, none, none, none, none, none, none, none⟩
    ⟨300, none, none, none, some 100, none, none, none, none, none, none, none, none, none⟩
    ⟨200, none, none, none, some 99, none, none, none, none, none, none, none, none, none⟩
    []
    ⟨1000, some 100, some 100, some 100, some 100, some 103, some 100, some 97,
     some 1, some 0, some 0, some 1, some 1, some 20⟩
    100 100 100 1 20 100 99
    rfl rfl (by decide) (by decide) rfl rfl rfl rfl rfl rfl rfl
  rw [h]
  norm_num

end TIE
